import Mathlib

/-!
# ardusub_api : `api/src/ardusub_interface.c`

A shallow embedding of the ground-station interface of ardusub_api and
theorems about it.

Conventions of the embedding

* The global variables of the C file (and the function-local `static`s) are the
  fields of `State`.  Every C function is a Lean function of the state before
  the call giving an `Outcome`: either the call returns (`Outcome.ret`) with a
  value and the state after it, or it does not return (`Outcome.halt`): a failed
  `g_assert` aborts the process, a NULL dereference faults, a `g_mutex_lock` on
  a mutex that is never released blocks for ever.
* Calls are executed one at a time (no interleaving of threads is modelled).
  Locks that are taken and released inside one call are therefore left out; the
  three `static GMutex my_mutex` of the pop functions are kept, because one
  return path leaves them locked.
* Everything the process does towards the outside (log lines, calls into the
  transport / configuration / persistence layers, spawned threads, transmitted
  MAVLink messages) is appended to `State.trace`.
* A pointer is modelled by `Option` of the value it points to (`none` = NULL).
  The hash tables are keyed by the integer the key pointer points to.
* `guint8` arguments are natural numbers below 256; arrays indexed by a
  `guint8` are functions on `Nat`.
-/

namespace Ardusub

/-! ## Constants and payload types of the absent header -/

/-- Constants that `ardusub_interface.h` and the MAVLink headers define. The C
file only names them, so they are parameters of the embedding. -/
structure Config where
  MAX_STATUSTEX : Nat
  MAX_NAMED_VALUE_FLOAT : Nat
  MAX_MESSAGE : Nat
  STATION_SYSYEM_ID : Nat
  STATION_COMPONENT_ID : Nat
  SUBNET_ADDRESS : String
  MOTOR_TEST_THROTTLE_PWM : Rat
  MOTOR_TEST_ORDER_DEFAULT : Rat
  /-- The `float` subtraction `a - b` as the C implementation computes and stores
  it (the result is rounded to a binary32 value). Rounding is not modelled, so the
  operation is a parameter. -/
  gfloat_sub : Rat → Rat → Rat

/-- The enumeration held in `vehicle_status[]`:
`SYS_UN_INIT`, `SYS_INITIATING`, `SYS_DISARMED`, `SYS_ARMED`. -/
inductive VehicleStatus where
  | SYS_UN_INIT
  | SYS_INITIATING
  | SYS_DISARMED
  | SYS_ARMED
  deriving DecidableEq, Repr

/-- MAVLink STATUSTEXT payload. -/
structure mavlink_statustext_t where
  severity : Nat
  text : String
  deriving DecidableEq, Repr

/-- MAVLink NAMED_VALUE_FLOAT payload; `value_bits` are the 32 bits of the
float, which the interface only copies. -/
structure mavlink_named_value_float_t where
  time_boot_ms : Nat
  value_bits : Nat
  name : String
  deriving DecidableEq, Repr

/-- The message set `Mavlink_Messages_t`: the two slots this file reads, and the
remaining slots (which it only copies as a whole) as one value. -/
structure Mavlink_Messages_t where
  statustext : mavlink_statustext_t
  named_value_float : mavlink_named_value_float_t
  others : Nat
  deriving DecidableEq, Repr

/-- The parameter map `Mavlink_Parameter_t`; this file only stores the pointer. -/
structure Mavlink_Parameter_t where
  handle : Nat
  deriving DecidableEq, Repr

/-- The telemetry snapshot `Vehicle_Data_t`; `g_new0` gives the all-zero one. -/
structure Vehicle_Data_t where
  content : Nat
  deriving DecidableEq, Repr

/-- MAVLink MANUAL_CONTROL payload. -/
structure mavlink_manual_control_t where
  x : Int
  y : Int
  z : Int
  r : Int
  buttons : Nat
  target : Nat
  deriving DecidableEq, Repr

/-- What `target_hash_table` holds for a system: the `GSocket *` or the
`guint8 *` serial channel that was given on admission. -/
inductive Target where
  | socket (sock : Nat)
  | serial_chan (chan : Nat)
  deriving DecidableEq, Repr

/-- The MAVLink commands this file sends in a COMMAND_LONG. -/
inductive MavCmd where
  | MAV_CMD_COMPONENT_ARM_DISARM
  | MAV_CMD_DO_SET_SERVO
  | MAV_CMD_DO_MOTOR_TEST
  deriving DecidableEq, Repr

/-- MAVLink COMMAND_LONG payload. A `float` is the rational it denotes (the
interface passes floats through; its one float operation is `Config.gfloat_sub`);
a field of a struct that was declared without initialiser and never assigned is
`none`. -/
structure mavlink_command_long_t where
  target_system : Nat
  target_component : Nat
  command : MavCmd
  confirmation : Nat
  param1 : Option Rat
  param2 : Option Rat
  param3 : Option Rat
  param4 : Option Rat
  param5 : Option Rat
  param6 : Option Rat
  param7 : Option Rat
  deriving DecidableEq

/-- The typed payloads handed to the codec. -/
inductive Payload where
  | command_long (cmd : mavlink_command_long_t)
  | set_mode (target_system base_mode custom_mode : Nat)
  | rc_channels_override (target_system target_component : Nat) (chan_raw : List Nat)
  | request_data_stream (target_system target_component req_stream_id
      req_message_rate start_stop : Nat)
  deriving DecidableEq

/-- The wire message `mavlink_message_t` that the MAVLink codec (an external
library) produces: the source ids and the payload it was encoded from. -/
structure mavlink_message_t where
  sysid : Nat
  compid : Nat
  payload : Payload
  deriving DecidableEq

/-- One effect of the process on its environment. -/
inductive Event where
  /-- The log line `g_message("no vehicle id:%d, in file: %s, func: %s, line: %d", ...)`. -/
  | g_message (sys_id : Nat) (func : String)
  /-- The log line `g_critical(text)`. -/
  | g_critical (text : String)
  /-- A call into a collaborator that is not part of this file. -/
  | call (name : String)
  /-- The call `as_udp_write_init(target_system, socket)`. -/
  | as_udp_write_init (target_system : Nat) (sock : Nat)
  /-- The call `g_thread_new(name, func, data)`; `data` is what the argument points to. -/
  | g_thread_new (name : String) (data : Option Nat)
  /-- The call `send_mavlink_message(target_system, &message)`. -/
  | send_mavlink_message (target_system : Nat) (message : mavlink_message_t)
  deriving DecidableEq

/-! ## The global state -/

/-- The globals of the interface and the function-local statics. -/
structure State where
  /-- The `static gboolean as_init_status` of `as_api_init`. -/
  as_init_status : Bool
  subnet_address : Option String
  message_hash_table : Option (Nat → Option Mavlink_Messages_t)
  parameter_hash_table : Option (Nat → Option Mavlink_Parameter_t)
  manual_control_table : Option (Nat → Option mavlink_manual_control_t)
  target_hash_table : Option (Nat → Option Target)
  /-- The counter `gint sys_count`. -/
  sys_count : Int
  /-- Entry `sys_key[s]`: NULL, or the pointer to the allocated key holding a system id. -/
  sys_key : Nat → Option Nat
  vehicle_status : Nat → VehicleStatus
  vehicle_data_array : Nat → Option Vehicle_Data_t
  /-- The queues, oldest element first. -/
  statustex_queue : Nat → Option (List mavlink_statustext_t)
  named_val_float_queue : Nat → Option (List mavlink_named_value_float_t)
  message_queue : Nat → Option (List Mavlink_Messages_t)
  /-- The `static ... *last_statustex` of `statustex_queue_pop` (and its siblings below). -/
  last_statustex : Option mavlink_statustext_t
  last_named_val_float : Option mavlink_named_value_float_t
  last_mavlink_message : Option Mavlink_Messages_t
  /-- The `static Vehicle_Data_t *last_vehicle_data` of `as_api_get_vehicle_data`. -/
  last_vehicle_data : Option Vehicle_Data_t
  /-- The `static GMutex my_mutex` of `statustex_queue_pop`, `true` when locked (and its siblings). -/
  statustex_pop_mutex : Bool
  named_val_float_pop_mutex : Bool
  message_pop_mutex : Bool
  trace : List Event

/-- Why a call does not return. -/
inductive Halt where
  /-- A `g_assert` failed: the process aborts. -/
  | assert_fail
  /-- A NULL pointer was dereferenced. -/
  | fault
  /-- A `g_mutex_lock` on a mutex that nobody will release. -/
  | blocked
  deriving DecidableEq, Repr

/-- Result of a call: it returns `val` in state `st`, or it stops in `st`. -/
inductive Outcome (α : Type) where
  | ret (val : α) (st : State)
  | halt (why : Halt) (st : State)

namespace Outcome

/-- The state in which the call ended. -/
def state {α : Type} : Outcome α → State
  | ret _ st => st
  | halt _ st => st

/-- The returned value, when the call returned. -/
def val? {α : Type} : Outcome α → Option α
  | ret v _ => some v
  | halt _ _ => none

/-- The call returned normally. -/
def returns {α : Type} : Outcome α → Bool
  | ret _ _ => true
  | halt _ _ => false

end Outcome

/-- Append one event to the trace. -/
def State.emit (st : State) (e : Event) : State :=
  { st with trace := st.trace ++ [e] }

/-- Assignment `a[i] = v` to a global array. -/
def setAt {α : Type} (a : Nat → α) (i : Nat) (v : α) : Nat → α :=
  fun k => if k = i then v else a k

/-- The process image at start: zero-initialised globals (`SYS_UN_INIT` is taken
to be the zero of the enumeration), nothing logged. -/
def State.start : State where
  as_init_status := false
  subnet_address := none
  message_hash_table := none
  parameter_hash_table := none
  manual_control_table := none
  target_hash_table := none
  sys_count := 0
  sys_key := fun _ => none
  vehicle_status := fun _ => VehicleStatus.SYS_UN_INIT
  vehicle_data_array := fun _ => none
  statustex_queue := fun _ => none
  named_val_float_queue := fun _ => none
  message_queue := fun _ => none
  last_statustex := none
  last_named_val_float := none
  last_mavlink_message := none
  last_vehicle_data := none
  statustex_pop_mutex := false
  named_val_float_pop_mutex := false
  message_pop_mutex := false
  trace := []

/-! ## GLib primitives -/

/-- The call `g_async_queue_push(queue, data)` on the queue object stored in slot `i`. -/
def g_async_queue_push {α : Type} (a : Nat → Option (List α)) (i : Nat) (data : α) :
    Nat → Option (List α) :=
  fun k => if k = i then (a k).map (fun q => q ++ [data]) else a k

/-- The call `g_async_queue_length(queue)`: the number of items (no thread ever waits on
these queues, they are only read with `g_async_queue_try_pop`); 0 with a
critical warning for a NULL queue. -/
def g_async_queue_length {α : Type} : Option (List α) → Int
  | none => 0
  | some q => (q.length : Int)

/-- The call `g_hash_table_insert(table, key, value)`; GLib returns from the call with a
critical warning when `table` is NULL. -/
def g_hash_table_insert {β : Type} (table : Option (Nat → Option β)) (key : Nat) (value : β) :
    Option (Nat → Option β) :=
  table.map (fun t => setAt t key (some value))

/-- The call `g_hash_table_new(g_int_hash, g_int_equal)`. -/
def g_hash_table_new {β : Type} : Option (Nat → Option β) :=
  some (fun _ => none)

/-! ## The bounded queues -/

/-- Function `statustex_queue_pop` (lines 643-671). The `return NULL` for a NULL
queue (line 657) comes before `g_mutex_unlock`, so `my_mutex` stays locked. -/
def statustex_queue_pop (target_system : Nat) (st : State) :
    Outcome (Option mavlink_statustext_t) :=
  if st.statustex_pop_mutex then .halt .blocked st
  else
    match st.statustex_queue target_system with
    | none => .ret none { st with statustex_pop_mutex := true }
    | some [] => .ret none { st with last_statustex := none }
    | some (m :: rest) =>
      .ret (some m) { st with
        statustex_queue := setAt st.statustex_queue target_system (some rest)
        last_statustex := some m }

/-- Function `statustex_queue_push` (lines 679-708). -/
def statustex_queue_push (cfg : Config) (target_system : Nat)
    (current_messages : Option Mavlink_Messages_t) (st : State) : Outcome Unit :=
  match current_messages with
  | none => .halt .assert_fail st
  | some msgs =>
    match st.statustex_queue target_system with
    | none => .ret () st
    | some q =>
      if q.length > cfg.MAX_STATUSTEX then
        match statustex_queue_pop target_system
            (st.emit (.g_critical "MAX_STATUSTEX reached!")) with
        | .halt why s1 => .halt why s1
        | .ret _ s1 =>
          .ret () { s1 with
            statustex_queue := g_async_queue_push s1.statustex_queue target_system msgs.statustext }
      else
        .ret () { st with
          statustex_queue := g_async_queue_push st.statustex_queue target_system msgs.statustext }

/-- Function `named_val_float_queue_pop` (lines 716-744); as above, the early
return at line 730 leaves `my_mutex` locked. -/
def named_val_float_queue_pop (target_system : Nat) (st : State) :
    Outcome (Option mavlink_named_value_float_t) :=
  if st.named_val_float_pop_mutex then .halt .blocked st
  else
    match st.named_val_float_queue target_system with
    | none => .ret none { st with named_val_float_pop_mutex := true }
    | some [] => .ret none { st with last_named_val_float := none }
    | some (m :: rest) =>
      .ret (some m) { st with
        named_val_float_queue := setAt st.named_val_float_queue target_system (some rest)
        last_named_val_float := some m }

/-- Function `named_val_float_queue_push` (lines 752-781). The clone is the
`named_value_float` slot (the C copies `sizeof(mavlink_statustext_t)` bytes
starting there; the bytes past the slot are not modelled). -/
def named_val_float_queue_push (cfg : Config) (target_system : Nat)
    (current_messages : Option Mavlink_Messages_t) (st : State) : Outcome Unit :=
  match current_messages with
  | none => .halt .assert_fail st
  | some msgs =>
    match st.named_val_float_queue target_system with
    | none => .ret () st
    | some q =>
      if q.length > cfg.MAX_NAMED_VALUE_FLOAT then
        match named_val_float_queue_pop target_system
            (st.emit (.g_critical "MAX_NAMED_VALUE_FLOAT reached!")) with
        | .halt why s1 => .halt why s1
        | .ret _ s1 =>
          .ret () { s1 with
            named_val_float_queue :=
              g_async_queue_push s1.named_val_float_queue target_system msgs.named_value_float }
      else
        .ret () { st with
          named_val_float_queue :=
            g_async_queue_push st.named_val_float_queue target_system msgs.named_value_float }

/-- Function `message_queue_pop` (lines 789-817); as above, the early return at
line 803 leaves `my_mutex` locked. -/
def message_queue_pop (target_system : Nat) (st : State) :
    Outcome (Option Mavlink_Messages_t) :=
  if st.message_pop_mutex then .halt .blocked st
  else
    match st.message_queue target_system with
    | none => .ret none { st with message_pop_mutex := true }
    | some [] => .ret none { st with last_mavlink_message := none }
    | some (m :: rest) =>
      .ret (some m) { st with
        message_queue := setAt st.message_queue target_system (some rest)
        last_mavlink_message := some m }

/-- Function `message_queue_push` (lines 825-854). -/
def message_queue_push (cfg : Config) (target_system : Nat)
    (current_messages : Option Mavlink_Messages_t) (st : State) : Outcome Unit :=
  match current_messages with
  | none => .halt .assert_fail st
  | some msgs =>
    match st.message_queue target_system with
    | none => .ret () st
    | some q =>
      if q.length > cfg.MAX_MESSAGE then
        match message_queue_pop target_system
            (st.emit (.g_critical "MAX_MESSAGE reached!")) with
        | .halt why s1 => .halt why s1
        | .ret _ s1 =>
          .ret () { s1 with
            message_queue := g_async_queue_push s1.message_queue target_system msgs }
      else
        .ret () { st with
          message_queue := g_async_queue_push st.message_queue target_system msgs }

/-! ## Initialisation and admission -/

/-- The call `g_hash_table_lookup(table, key)`: NULL (with a critical warning)
when `table` is NULL; otherwise the key is hashed by `g_int_hash`, which
dereferences it, so a NULL key faults. -/
def g_hash_table_lookup {β : Type} (table : Option (Nat → Option β)) (key : Option Nat) :
    Except Halt (Option β) :=
  match table with
  | none => .ok none
  | some t =>
    match key with
    | none => .error .fault
    | some k => .ok (t k)

/-- A write through the pointer that `g_hash_table_lookup(table, key)` returned:
the value stored under `key` becomes `f` of it. -/
def g_hash_table_poke {β : Type} (table : Option (Nat → Option β)) (key : Option Nat)
    (f : β → β) : Option (Nat → Option β) :=
  table.map (fun t k => if some k = key then (t k).map f else t k)

/-- Increment of a `gint` by `g_atomic_int_inc` (32 bit, wrapping). -/
def wrap32 (n : Int) : Int :=
  (n + 2 ^ 31) % 2 ^ 32 - 2 ^ 31

/-- Modelled from the spec: `send_mavlink_message` is defined outside this file
("submit to the Transport writer keyed by target SystemId"); the submission is
recorded in the trace. -/
def send_mavlink_message (target_system : Nat) (message : mavlink_message_t) (st : State) :
    State :=
  st.emit (.send_mavlink_message target_system message)

/-- The encoders `mavlink_msg_*_encode(STATION_SYSYEM_ID, STATION_COMPONENT_ID, &message, &payload)`. -/
def encode (cfg : Config) (payload : Payload) : mavlink_message_t :=
  { sysid := cfg.STATION_SYSYEM_ID, compid := cfg.STATION_COMPONENT_ID, payload := payload }

/-- The choice of `subnet_address` in `as_api_init` (lines 33-44): the default
for NULL, NULL (serial port) for "serial port", the given address otherwise. -/
def select_subnet_address (cfg : Config) (p_subnet_address : Option String) : Option String :=
  match p_subnet_address with
  | none => some cfg.SUBNET_ADDRESS
  | some a => if a = "serial port" then none else some a

/-- The reader started by `as_api_init` (lines 60-69): UDP when `subnet_address`
is not NULL, serial port otherwise. -/
def start_reader (subnet_address : Option String) : Event :=
  match subnet_address with
  | some _ => .call "as_udp_read_init"
  | none => .call "as_serial_read_init"

/-- Function `as_api_init` (lines 21-77). The three collaborator calls
`as_read_ini_file`, `as_set_log_handler`, `as_sql_open_db` and the start of the
reader are recorded in the trace. -/
def as_api_init (cfg : Config) (p_subnet_address : Option String) (st : State) : Outcome Unit :=
  if st.as_init_status then .ret () st
  else
    let s1 : State := { st with
      subnet_address := select_subnet_address cfg p_subnet_address
      message_hash_table := g_hash_table_new
      parameter_hash_table := g_hash_table_new
      manual_control_table := g_hash_table_new
      target_hash_table := g_hash_table_new }
    let s2 := ((s1.emit (.call "as_read_ini_file")).emit (.call "as_set_log_handler")).emit
      (.call "as_sql_open_db")
    let s3 := s2.emit (start_reader s2.subnet_address)
    let s4 := s3.emit (.g_thread_new "as_api_main" none)
    .ret () { s4 with as_init_status := true }

/-- Function `as_api_deinit` (lines 83-86): an empty body. -/
def as_api_deinit (st : State) : Outcome Unit :=
  .ret () st

/-- The `guint16` built by `*target_ = target_system << 8; *target_ |= target_component`. -/
def target_word (target_system target_component : Nat) : Nat :=
  ((target_system * 256) % 65536) ||| target_component

/-- Function `as_request_full_parameters` (lines 406-415); `g_new0` does not
return NULL, so the assertion holds. -/
def as_request_full_parameters (target_system target_component : Nat) (st : State) :
    Outcome Unit :=
  .ret () (st.emit (.g_thread_new "parameters_request_worker"
    (some (target_word target_system target_component))))

/-- Function `as_reauest_data_stream` (lines 488-497). -/
def as_reauest_data_stream (target_system target_component : Nat) (st : State) :
    Outcome Unit :=
  .ret () (st.emit (.g_thread_new "request_data_stream_worker"
    (some (target_word target_system target_component))))

/-- The setpoint `g_new0(mavlink_manual_control_t, 1)` with `z = 500`. -/
def initial_manual_control : mavlink_manual_control_t :=
  { x := 0, y := 0, z := 500, r := 0, buttons := 0, target := 0 }

/-- Function `as_system_add` (lines 115-195). `g_new0` aborts by itself when memory
is exhausted, so both `g_error("Out of memory!")` branches are dead. -/
def as_system_add (target_system target_autopilot : Nat)
    (current_messages : Option Mavlink_Messages_t)
    (current_parameter : Option Mavlink_Parameter_t)
    (current_target_socket : Option Nat) (current_targer_serial_chan : Option Nat)
    (st : State) : Outcome Unit :=
  match current_messages, current_parameter with
  | none, _ => .halt .assert_fail st
  | some _, none => .halt .assert_fail st
  | some msgs, some params =>
    if current_target_socket = none ∧ current_targer_serial_chan = none then
      .halt .assert_fail st
    else
      let s1 : State := { st with sys_count := wrap32 (st.sys_count + 1) }
      let s2 : State := { s1 with
        message_hash_table := g_hash_table_insert s1.message_hash_table target_system msgs
        parameter_hash_table := g_hash_table_insert s1.parameter_hash_table target_system params }
      let s3 : State :=
        match current_target_socket with
        | some sock =>
          { s2.emit (.as_udp_write_init target_system sock) with
            target_hash_table :=
              g_hash_table_insert s2.target_hash_table target_system (Target.socket sock) }
        | none => s2
      let s4 : State :=
        match current_targer_serial_chan with
        | some chan =>
          { s3.emit (.call "as_serial_write_init") with
            target_hash_table :=
              g_hash_table_insert s3.target_hash_table target_system (Target.serial_chan chan) }
        | none => s3
      let s5 : State := { s4 with
        manual_control_table :=
          g_hash_table_insert s4.manual_control_table target_system initial_manual_control }
      let s6 : State := { s5 with
        statustex_queue := setAt s5.statustex_queue target_system (some [])
        named_val_float_queue := setAt s5.named_val_float_queue target_system (some [])
        message_queue := setAt s5.message_queue target_system (some [])
        vehicle_data_array := setAt s5.vehicle_data_array target_system (some { content := 0 })
        sys_key := setAt s5.sys_key target_system (some target_system) }
      match as_request_full_parameters target_system target_autopilot s6 with
      | .halt why s7 => .halt why s7
      | .ret _ s7 =>
        match as_reauest_data_stream target_system target_autopilot s7 with
        | .halt why s8 => .halt why s8
        | .ret _ s8 =>
          .ret () ((((s8.emit (.g_thread_new "manual_control_worker" (some target_system))).emit
            (.g_thread_new "named_val_float_handle_worker" (some target_system))).emit
            (.g_thread_new "vehicle_data_update_worker" (some target_system))).emit
            (.g_thread_new "db_update_worker" (some target_system)))

/-! ## Readiness check and the command surface -/

/-- Function `as_api_check_vehicle` (lines 308-320). -/
def as_api_check_vehicle (sysid : Nat) (st : State) : Outcome Int :=
  if st.sys_key sysid = none ∨
      st.vehicle_status sysid = VehicleStatus.SYS_UN_INIT ∨
      st.vehicle_status sysid = VehicleStatus.SYS_INITIATING then
    .ret 0 st
  else
    .ret 1 st

/-- The shared opening of the API functions:
`if (0 == as_api_check_vehicle(id)) { g_message(...); }`, giving the result of
the check. -/
def check_and_log (sys_id : Nat) (func : String) (st : State) : Outcome Int :=
  match as_api_check_vehicle sys_id st with
  | .halt why s0 => .halt why s0
  | .ret chk s0 => .ret chk (if chk = 0 then s0.emit (.g_message sys_id func) else s0)

/-- The `uint8_t sys_id` of `as_api_manual_control` (lines 209-217): 1, or with
more than one system the variadic `int` converted to `uint8_t`. -/
def manual_control_sys_id (st : State) (va : Int) : Nat :=
  if st.sys_count > 1 then (va % 256).toNat else 1

/-- Function `as_api_manual_control` (lines 207-244); `va` is the first variadic
argument as `va_arg(ap, int)` reads it. -/
def as_api_manual_control (x y z r : Int) (buttons : Nat) (va : Int) (st : State) :
    Outcome Unit :=
  let sys_id : Nat := manual_control_sys_id st va
  match check_and_log sys_id "as_api_manual_control" st with
  | .halt why s1 => .halt why s1
  | .ret _ s1 =>
    if s1.vehicle_status sys_id ≠ VehicleStatus.SYS_ARMED then .ret () s1
    else
      match g_hash_table_lookup s1.manual_control_table (s1.sys_key sys_id) with
      | .error why => .halt why s1
      | .ok none => .halt .fault s1
      | .ok (some _) =>
        .ret () { s1 with
          manual_control_table :=
            g_hash_table_poke s1.manual_control_table (s1.sys_key sys_id)
              (fun p => { p with x := x, y := y, z := z, r := r, buttons := buttons }) }

/-- Function `as_api_get_vehicle_data` (lines 252-280): the returned clone is the
new `last_vehicle_data` (`g_memdup` of NULL is NULL). -/
def as_api_get_vehicle_data (target_system : Nat) (st : State) :
    Outcome (Option Vehicle_Data_t) :=
  match check_and_log target_system "as_api_get_vehicle_data" st with
  | .halt why s1 => .halt why s1
  | .ret _ s1 =>
    .ret (s1.vehicle_data_array target_system)
      { s1 with last_vehicle_data := s1.vehicle_data_array target_system }

/-- Function `as_get_meaasge` (lines 288-300). -/
def as_get_meaasge (sysid : Nat) (st : State) : Outcome Mavlink_Messages_t :=
  match st.sys_key sysid with
  | none => .halt .assert_fail st
  | some k =>
    match g_hash_table_lookup st.message_hash_table (some k) with
    | .error why => .halt why st
    | .ok none => .halt .assert_fail st
    | .ok (some m) => .ret m st

/-- Function `as_api_set_servo` (lines 330-347). -/
def as_api_set_servo (cfg : Config) (target_system target_autopilot : Nat)
    (servo_no pwm : Rat) (st : State) : Outcome Unit :=
  let cmd_long : mavlink_command_long_t :=
    { target_system := target_system, target_component := target_autopilot,
      command := MavCmd.MAV_CMD_DO_SET_SERVO, confirmation := 0,
      param1 := some servo_no, param2 := some pwm,
      param3 := none, param4 := none, param5 := none, param6 := none, param7 := none }
  .ret () (send_mavlink_message target_system (encode cfg (.command_long cmd_long)) st)

/-- Function `as_api_motor_test` (lines 357-378). `param1 = motor_no - 1` is a
`float` subtraction, whose rounded result is `cfg.gfloat_sub motor_no 1`. -/
def as_api_motor_test (cfg : Config) (target_system target_autopilot : Nat)
    (motor_no pwm : Rat) (st : State) : Outcome Unit :=
  let cmd_long : mavlink_command_long_t :=
    { target_system := target_system, target_component := target_autopilot,
      command := MavCmd.MAV_CMD_DO_MOTOR_TEST, confirmation := 0,
      param1 := some (cfg.gfloat_sub motor_no 1), param2 := some cfg.MOTOR_TEST_THROTTLE_PWM,
      param3 := some pwm, param4 := some 10, param5 := some 8,
      param6 := some cfg.MOTOR_TEST_ORDER_DEFAULT, param7 := none }
  .ret () (send_mavlink_message target_system (encode cfg (.command_long cmd_long)) st)

/-- Function `as_api_set_mode` (lines 386-398). -/
def as_api_set_mode (cfg : Config) (target_system mode : Nat) (st : State) : Outcome Unit :=
  .ret () (send_mavlink_message target_system
    (encode cfg (.set_mode target_system 209 mode)) st)

/-- Function `as_api_send_rc_channels_override` (lines 431-452). -/
def as_api_send_rc_channels_override (cfg : Config) (target_system target_autopilot : Nat)
    (ch1 ch2 ch3 ch4 ch5 ch6 ch7 ch8 : Nat) (st : State) : Outcome Unit :=
  .ret () (send_mavlink_message target_system
    (encode cfg (.rc_channels_override target_system target_autopilot
      [ch1, ch2, ch3, ch4, ch5, ch6, ch7, ch8])) st)

/-- Function `as_send_request_data_stream` (lines 463-480). -/
def as_send_request_data_stream (cfg : Config) (target_system target_component
    req_stream_id req_message_rate start_stop : Nat) (st : State) : Outcome Unit :=
  .ret () (send_mavlink_message target_system
    (encode cfg (.request_data_stream target_system target_component req_stream_id
      req_message_rate start_stop)) st)

/-- The COMMAND_LONG of arm (`param1 = 1.0F`) and disarm (`param1 = 0.0F`):
`cmd = {0}` with the five assigned fields. -/
def arm_disarm_cmd (target_system target_autopilot : Nat) (param1 : Rat) :
    mavlink_command_long_t :=
  { target_system := target_system, target_component := target_autopilot,
    command := MavCmd.MAV_CMD_COMPONENT_ARM_DISARM, confirmation := 0,
    param1 := some param1, param2 := some 0, param3 := some 0, param4 := some 0,
    param5 := some 0, param6 := some 0, param7 := some 0 }

/-- The five assignments "clear manual_control value" of arm and disarm. -/
def clear_manual_control (p : mavlink_manual_control_t) : mavlink_manual_control_t :=
  { p with x := 0, y := 0, z := 500, r := 0, buttons := 0 }

/-- Function `as_api_vehicle_arm` (lines 505-546). -/
def as_api_vehicle_arm (cfg : Config) (target_system target_autopilot : Nat) (st : State) :
    Outcome Unit :=
  match check_and_log target_system "as_api_vehicle_arm" st with
  | .halt why s1 => .halt why s1
  | .ret _ s1 =>
    let message := encode cfg (.command_long (arm_disarm_cmd target_system target_autopilot 1))
    match g_hash_table_lookup s1.manual_control_table (s1.sys_key target_system) with
    | .error why => .halt why s1
    | .ok none => .halt .assert_fail s1
    | .ok (some _) =>
      let s2 : State := { s1 with
        manual_control_table :=
          g_hash_table_poke s1.manual_control_table (s1.sys_key target_system)
            clear_manual_control }
      let s3 : State := { s2 with
        vehicle_status := setAt s2.vehicle_status target_system VehicleStatus.SYS_ARMED }
      .ret () (send_mavlink_message target_system message s3)

/-- Function `as_api_vehicle_disarm` (lines 554-595). -/
def as_api_vehicle_disarm (cfg : Config) (target_system target_autopilot : Nat) (st : State) :
    Outcome Unit :=
  match check_and_log target_system "as_api_vehicle_disarm" st with
  | .halt why s1 => .halt why s1
  | .ret _ s1 =>
    let message := encode cfg (.command_long (arm_disarm_cmd target_system target_autopilot 0))
    let s2 := send_mavlink_message target_system message s1
    let s3 : State := { s2 with
      vehicle_status := setAt s2.vehicle_status target_system VehicleStatus.SYS_DISARMED }
    match g_hash_table_lookup s3.manual_control_table (s3.sys_key target_system) with
    | .error why => .halt why s3
    | .ok none => .halt .assert_fail s3
    | .ok (some _) =>
      .ret () { s3 with
        manual_control_table :=
          g_hash_table_poke s3.manual_control_table (s3.sys_key target_system)
            clear_manual_control }

/-- Function `as_api_statustex_queue_pop` (lines 605-616). -/
def as_api_statustex_queue_pop (target_system : Nat) (st : State) :
    Outcome (Option mavlink_statustext_t) :=
  match as_api_check_vehicle target_system st with
  | .halt why s0 => .halt why s0
  | .ret chk s0 =>
    if chk = 0 then
      .ret none (s0.emit (.g_message target_system "as_api_statustex_queue_pop"))
    else statustex_queue_pop target_system s0

/-- Function `as_api_statustex_count` (lines 624-635). -/
def as_api_statustex_count (target_system : Nat) (st : State) : Outcome Int :=
  match as_api_check_vehicle target_system st with
  | .halt why s0 => .halt why s0
  | .ret chk s0 =>
    if chk = 0 then
      .ret 0 (s0.emit (.g_message target_system "as_api_statustex_count"))
    else .ret (g_async_queue_length (s0.statustex_queue target_system)) s0

/-! ## Sequences of calls -/

/-- Repeated `statustex_queue_push` for one system, one call per message; stops
at the first call that does not return. -/
def statustex_pushes (cfg : Config) (target_system : Nat) :
    List Mavlink_Messages_t → State → Outcome Unit
  | [], st => .ret () st
  | m :: ms, st =>
    match statustex_queue_push cfg target_system (some m) st with
    | .halt why s1 => .halt why s1
    | .ret _ s1 => statustex_pushes cfg target_system ms s1

/-- Repeated `named_val_float_queue_push` for one system. -/
def named_val_float_pushes (cfg : Config) (target_system : Nat) :
    List Mavlink_Messages_t → State → Outcome Unit
  | [], st => .ret () st
  | m :: ms, st =>
    match named_val_float_queue_push cfg target_system (some m) st with
    | .halt why s1 => .halt why s1
    | .ret _ s1 => named_val_float_pushes cfg target_system ms s1

/-- Repeated `message_queue_push` for one system. -/
def message_pushes (cfg : Config) (target_system : Nat) :
    List Mavlink_Messages_t → State → Outcome Unit
  | [], st => .ret () st
  | m :: ms, st =>
    match message_queue_push cfg target_system (some m) st with
    | .halt why s1 => .halt why s1
    | .ret _ s1 => message_pushes cfg target_system ms s1

/-- A state in which the three queues of `target_system` have just been created
(as `as_system_add` leaves them) and no pop mutex is held. -/
def State.withFreshQueues (st : State) (target_system : Nat) : State :=
  { st with
    statustex_queue := setAt st.statustex_queue target_system (some [])
    named_val_float_queue := setAt st.named_val_float_queue target_system (some [])
    message_queue := setAt st.message_queue target_system (some [])
    statustex_pop_mutex := false
    named_val_float_pop_mutex := false
    message_pop_mutex := false }

/-- Forget the returned value of a call. -/
def Outcome.void {α : Type} : Outcome α → Outcome Unit
  | .ret _ st => .ret () st
  | .halt why st => .halt why st

/-- One call of a function of the file, with its arguments. -/
inductive Op where
  | as_api_init (p_subnet_address : Option String)
  | as_api_deinit
  | as_system_add (target_system target_autopilot : Nat)
      (current_messages : Option Mavlink_Messages_t)
      (current_parameter : Option Mavlink_Parameter_t)
      (current_target_socket current_targer_serial_chan : Option Nat)
  | as_api_manual_control (x y z r : Int) (buttons : Nat) (va : Int)
  | as_api_get_vehicle_data (target_system : Nat)
  | as_get_meaasge (sysid : Nat)
  | as_api_check_vehicle (sysid : Nat)
  | as_api_set_servo (target_system target_autopilot : Nat) (servo_no pwm : Rat)
  | as_api_motor_test (target_system target_autopilot : Nat) (motor_no pwm : Rat)
  | as_api_set_mode (target_system mode : Nat)
  | as_request_full_parameters (target_system target_component : Nat)
  | as_api_send_rc_channels_override (target_system target_autopilot : Nat)
      (ch1 ch2 ch3 ch4 ch5 ch6 ch7 ch8 : Nat)
  | as_send_request_data_stream (target_system target_component req_stream_id
      req_message_rate start_stop : Nat)
  | as_reauest_data_stream (target_system target_component : Nat)
  | as_api_vehicle_arm (target_system target_autopilot : Nat)
  | as_api_vehicle_disarm (target_system target_autopilot : Nat)
  | as_api_statustex_queue_pop (target_system : Nat)
  | as_api_statustex_count (target_system : Nat)
  | statustex_queue_pop (target_system : Nat)
  | statustex_queue_push (target_system : Nat) (current_messages : Option Mavlink_Messages_t)
  | named_val_float_queue_pop (target_system : Nat)
  | named_val_float_queue_push (target_system : Nat)
      (current_messages : Option Mavlink_Messages_t)
  | message_queue_pop (target_system : Nat)
  | message_queue_push (target_system : Nat) (current_messages : Option Mavlink_Messages_t)

/-- Execute one call. -/
def Op.exec (cfg : Config) : Op → State → Outcome Unit
  | .as_api_init p, st => Ardusub.as_api_init cfg p st
  | .as_api_deinit, st => Ardusub.as_api_deinit st
  | .as_system_add ts ta m p sock chan, st => Ardusub.as_system_add ts ta m p sock chan st
  | .as_api_manual_control x y z r b va, st => Ardusub.as_api_manual_control x y z r b va st
  | .as_api_get_vehicle_data ts, st => (Ardusub.as_api_get_vehicle_data ts st).void
  | .as_get_meaasge s, st => (Ardusub.as_get_meaasge s st).void
  | .as_api_check_vehicle s, st => (Ardusub.as_api_check_vehicle s st).void
  | .as_api_set_servo ts ta n pwm, st => Ardusub.as_api_set_servo cfg ts ta n pwm st
  | .as_api_motor_test ts ta n pwm, st => Ardusub.as_api_motor_test cfg ts ta n pwm st
  | .as_api_set_mode ts mode, st => Ardusub.as_api_set_mode cfg ts mode st
  | .as_request_full_parameters ts tc, st => Ardusub.as_request_full_parameters ts tc st
  | .as_api_send_rc_channels_override ts ta c1 c2 c3 c4 c5 c6 c7 c8, st =>
    Ardusub.as_api_send_rc_channels_override cfg ts ta c1 c2 c3 c4 c5 c6 c7 c8 st
  | .as_send_request_data_stream ts tc i rate ss, st =>
    Ardusub.as_send_request_data_stream cfg ts tc i rate ss st
  | .as_reauest_data_stream ts tc, st => Ardusub.as_reauest_data_stream ts tc st
  | .as_api_vehicle_arm ts ta, st => Ardusub.as_api_vehicle_arm cfg ts ta st
  | .as_api_vehicle_disarm ts ta, st => Ardusub.as_api_vehicle_disarm cfg ts ta st
  | .as_api_statustex_queue_pop ts, st => (Ardusub.as_api_statustex_queue_pop ts st).void
  | .as_api_statustex_count ts, st => (Ardusub.as_api_statustex_count ts st).void
  | .statustex_queue_pop ts, st => (Ardusub.statustex_queue_pop ts st).void
  | .statustex_queue_push ts m, st => Ardusub.statustex_queue_push cfg ts m st
  | .named_val_float_queue_pop ts, st => (Ardusub.named_val_float_queue_pop ts st).void
  | .named_val_float_queue_push ts m, st => Ardusub.named_val_float_queue_push cfg ts m st
  | .message_queue_pop ts, st => (Ardusub.message_queue_pop ts st).void
  | .message_queue_push ts m, st => Ardusub.message_queue_push cfg ts m st

/-- The states the process can be in between calls: the start image, and what a
call that returned leaves. -/
inductive Reachable (cfg : Config) : State → Prop where
  | start : Reachable cfg State.start
  | step {st st' : State} (op : Op) (h : Reachable cfg st)
      (hstep : op.exec cfg st = .ret () st') : Reachable cfg st'

/-- Lookup of a setpoint under a key pointer, `none` when the lookup finds
nothing or faults. -/
def lookup_setpoint (table : Option (Nat → Option mavlink_manual_control_t))
    (key : Option Nat) : Option mavlink_manual_control_t :=
  match g_hash_table_lookup table key with
  | .ok v => v
  | .error _ => none

/-- The ManualControlSetpoint of a system, read the way arm, disarm and
`as_api_manual_control` find it: `manual_control_table` looked up under
`sys_key[s]`; `none` when there is none. -/
def setpoint (st : State) (s : Nat) : Option mavlink_manual_control_t :=
  lookup_setpoint st.manual_control_table (st.sys_key s)

/-- The edges the specification permits for `VehicleStatus`:
Uninitialized → Initiating, Initiating → Disarmed, Disarmed → Armed,
Armed → Disarmed. -/
def permitted_edge : VehicleStatus → VehicleStatus → Bool
  | .SYS_UN_INIT, .SYS_INITIATING => true
  | .SYS_INITIATING, .SYS_DISARMED => true
  | .SYS_DISARMED, .SYS_ARMED => true
  | .SYS_ARMED, .SYS_DISARMED => true
  | _, _ => false

/-- Rounding of a rational to an integer, ties to the even one. -/
def round_half_even (t : Rat) : Int :=
  let f := t.floor
  let r := t - f
  if r < 1 / 2 then f
  else if 1 / 2 < r then f + 1
  else if f % 2 = 0 then f else f + 1

/-- The binary32 value nearest to a rational, ties to even, with gradual
underflow (24 bit significand, least exponent -126); results beyond the largest
float, which would be infinite, do not arise from `motor_no - 1`. -/
def round_binary32 (q : Rat) : Rat :=
  if q = 0 then 0
  else
    let a := |q|
    let e0 : Int := (Nat.log2 a.num.natAbs : Int) - (Nat.log2 a.den : Int)
    let e1 : Int := if (2 : Rat) ^ e0 ≤ a then e0 else e0 - 1
    let e : Int := max e1 (-126)
    let ulp : Rat := (2 : Rat) ^ (e - 23)
    let r : Rat := (round_half_even (a / ulp) : Rat) * ulp
    if q < 0 then -r else r

/-- Constants used in the worked examples. Its `gfloat_sub` is the difference
rounded once to binary32, as an implementation that evaluates `float`
expressions in `float` gives it. -/
def Config.sample : Config where
  MAX_STATUSTEX := 2
  MAX_NAMED_VALUE_FLOAT := 2
  MAX_MESSAGE := 2
  STATION_SYSYEM_ID := 255
  STATION_COMPONENT_ID := 1
  SUBNET_ADDRESS := "192.168.2."
  MOTOR_TEST_THROTTLE_PWM := 1
  MOTOR_TEST_ORDER_DEFAULT := 0
  gfloat_sub := fun a b => round_binary32 (a - b)

/-- A message set used in the worked examples. -/
def Mavlink_Messages_t.sample (n : Nat) : Mavlink_Messages_t where
  statustext := { severity := n, text := "text" }
  named_value_float := { time_boot_ms := n, value_bits := 0, name := "name" }
  others := n

/-- The state after `as_api_init(NULL)` at process start. -/
def State.initialised : State :=
  (as_api_init Config.sample none State.start).state

/-- The state after `as_api_init(NULL)` and the admission of system 1 over UDP. -/
def State.admitted1 : State :=
  (as_system_add 1 1 (some (Mavlink_Messages_t.sample 10)) (some { handle := 11 })
    (some 12) none State.initialised).state

/-- System 1 admitted, with status Initiating (as the parameter harvest, which is
outside this file, sets it until it completes). -/
def State.initiating1 : State :=
  { State.admitted1 with
    vehicle_status := setAt State.admitted1.vehicle_status 1 VehicleStatus.SYS_INITIATING }

/-- The state after `as_api_init(NULL)` and the admission of systems 1 and 2. -/
def State.admitted12 : State :=
  (as_system_add 2 1 (some (Mavlink_Messages_t.sample 20)) (some { handle := 21 })
    (some 22) none State.admitted1).state

/-- The value `as_api_check_vehicle(sysid)` returns: 0 when `sys_key[sysid]` is
NULL or the status is `SYS_UN_INIT` or `SYS_INITIATING`, and `!0` = 1 otherwise. -/
def check_value (st : State) (sysid : Nat) : Int :=
  if st.sys_key sysid = none ∨
      st.vehicle_status sysid = VehicleStatus.SYS_UN_INIT ∨
      st.vehicle_status sysid = VehicleStatus.SYS_INITIATING then 0 else 1

/-- The state after the opening check of an API function: the "no vehicle"
line is logged when the check gave 0. -/
def logged (st : State) (sys_id : Nat) (func : String) : State :=
  if check_value st sys_id = 0 then st.emit (.g_message sys_id func) else st

/-- The part of the state that describes the sessions is the same in both states. -/
structure SameSessions (st st' : State) : Prop where
  as_init_status : st'.as_init_status = st.as_init_status
  message_hash_table : st'.message_hash_table = st.message_hash_table
  parameter_hash_table : st'.parameter_hash_table = st.parameter_hash_table
  manual_control_table : st'.manual_control_table = st.manual_control_table
  target_hash_table : st'.target_hash_table = st.target_hash_table
  sys_count : st'.sys_count = st.sys_count
  sys_key : st'.sys_key = st.sys_key
  vehicle_status : st'.vehicle_status = st.vehicle_status

/-- The calls that write to the session registry or to `vehicle_status`. -/
def Op.touchesSessions : Op → Bool
  | .as_api_init _ => true
  | .as_system_add _ _ _ _ _ _ => true
  | .as_api_manual_control _ _ _ _ _ _ => true
  | .as_api_vehicle_arm _ _ => true
  | .as_api_vehicle_disarm _ _ => true
  | _ => false

/-- Well-formed registry: every published `sys_key[s]` points to a key holding
`s` itself, the tables exist only once `as_api_init` has run, and a system whose
status is Armed has a setpoint. -/
structure State.WF (st : State) : Prop where
  key_self : ∀ s k, st.sys_key s = some k → k = s
  armed_has_setpoint : ∀ s, st.vehicle_status s = VehicleStatus.SYS_ARMED →
    ∃ mc, lookup_setpoint st.manual_control_table (st.sys_key s) = some mc
  tables_after_init : st.as_init_status = false → st.manual_control_table = none

/-- The wire message `as_api_vehicle_arm` (`param1 = 1`) and
`as_api_vehicle_disarm` (`param1 = 0`) hand to the transport, written out. -/
def arm_disarm_message (cfg : Config) (s a : Nat) (param1 : Rat) : mavlink_message_t :=
  { sysid := cfg.STATION_SYSYEM_ID, compid := cfg.STATION_COMPONENT_ID,
    payload := .command_long
      { target_system := s, target_component := a,
        command := MavCmd.MAV_CMD_COMPONENT_ARM_DISARM, confirmation := 0,
        param1 := some param1, param2 := some 0, param3 := some 0, param4 := some 0,
        param5 := some 0, param6 := some 0, param7 := some 0 } }

/-- System 1 and 2 admitted, system 2 armed. -/
def State.armed2 : State :=
  (as_api_vehicle_arm Config.sample 2 1 State.admitted12).state

/-- System 1 admitted and not yet ready, with one statustext in its queue. -/
def State.pushed1 : State :=
  (statustex_queue_push Config.sample 1 (some (Mavlink_Messages_t.sample 40))
    State.admitted1).state

/-- Systems 1 and 2 admitted, 2 armed, with two statustexts in the queue of 2. -/
def State.armed2_pushed : State :=
  (statustex_queue_push Config.sample 2 (some (Mavlink_Messages_t.sample 51))
    (statustex_queue_push Config.sample 2 (some (Mavlink_Messages_t.sample 50))
      State.armed2).state).state

/-- A sequence of `as_api_init` calls, one per selector. -/
def as_api_init_calls (cfg : Config) : List (Option String) → State → Outcome Unit
  | [], st => .ret () st
  | p :: ps, st =>
    match as_api_init cfg p st with
    | .halt why s1 => .halt why s1
    | .ret _ s1 => as_api_init_calls cfg ps s1

/-- The selector the specification lets win: the first one that is not null
(null when all are). -/
def first_non_null_selector : List (Option String) → Option String
  | [] => none
  | none :: ps => first_non_null_selector ps
  | some a :: _ => some a

/-- The entry of a registry map for system `s`: `none` when the map does not
exist or has no entry. -/
def entry {β : Type} (table : Option (Nat → Option β)) (s : Nat) : Option β :=
  match table with
  | some t => t s
  | none => none

/-- The four registry maps exist (`as_api_init` has created them). -/
def State.Ready (st : State) : Prop :=
  st.message_hash_table.isSome ∧ st.parameter_hash_table.isSome ∧
    st.manual_control_table.isSome ∧ st.target_hash_table.isSome

/-- Invariant I1: for every system, `sys_key[s]` is published exactly when each
of the four maps has an entry for `s`. -/
def State.Agree (st : State) : Prop :=
  ∀ s, ((st.sys_key s).isSome ↔ (entry st.message_hash_table s).isSome) ∧
    ((st.sys_key s).isSome ↔ (entry st.parameter_hash_table s).isSome) ∧
    ((st.sys_key s).isSome ↔ (entry st.target_hash_table s).isSome) ∧
    ((st.sys_key s).isSome ↔ (entry st.manual_control_table s).isSome)

/-- The states reachable by admissions: `as_api_init` at process start, followed
by any number of `as_system_add` calls that returned. -/
inductive AdmissionReachable (cfg : Config) : State → Prop where
  | init {st : State} (p : Option String)
      (h : as_api_init cfg p State.start = .ret () st) : AdmissionReachable cfg st
  | add {st st' : State} (ts ta : Nat) (m : Option Mavlink_Messages_t)
      (p : Option Mavlink_Parameter_t) (sock chan : Option Nat)
      (h : AdmissionReachable cfg st)
      (hstep : as_system_add ts ta m p sock chan st = .ret () st') :
      AdmissionReachable cfg st'

/-- The target `as_system_add` registers: the serial channel when one is given
(it is inserted last), otherwise the socket. -/
def registered_target (sock chan : Option Nat) : Option Target :=
  match chan, sock with
  | some c, _ => some (Target.serial_chan c)
  | none, some k => some (Target.socket k)
  | none, none => none

/-- The events of one admission: the transport initialisations and the six
spawned workers. -/
def admission_events (ts ta : Nat) (sock chan : Option Nat) : List Event :=
  (match sock with
    | some k => [Event.as_udp_write_init ts k]
    | none => []) ++
  (match chan with
    | some _ => [Event.call "as_serial_write_init"]
    | none => []) ++
  [Event.g_thread_new "parameters_request_worker" (some (target_word ts ta)),
    Event.g_thread_new "request_data_stream_worker" (some (target_word ts ta)),
    Event.g_thread_new "manual_control_worker" (some ts),
    Event.g_thread_new "named_val_float_handle_worker" (some ts),
    Event.g_thread_new "vehicle_data_update_worker" (some ts),
    Event.g_thread_new "db_update_worker" (some ts)]

/-- System 1 admitted, with one queued statustext, status Disarmed. -/
def State.disarmed1 : State :=
  { State.pushed1 with
    vehicle_status := setAt State.pushed1.vehicle_status 1 VehicleStatus.SYS_DISARMED }

/-- A second `as_system_add` for system 1, which already has a session with a
queued statustext, with another message set, parameter map and socket. -/
def duplicate_admission : Outcome Unit :=
  as_system_add 1 1 (some (Mavlink_Messages_t.sample 30)) (some { handle := 31 })
    (some 32) none State.disarmed1

/-- The ranges the specification gives for a ManualControlSetpoint:
`z` in 0..1000 and `x`, `y`, `r` in -1000..1000. -/
def InRange (mc : mavlink_manual_control_t) : Prop :=
  (0 ≤ mc.z ∧ mc.z ≤ 1000) ∧ (-1000 ≤ mc.x ∧ mc.x ≤ 1000) ∧
    (-1000 ≤ mc.y ∧ mc.y ≤ 1000) ∧ (-1000 ≤ mc.r ∧ mc.r ≤ 1000)

/-- The values of an `int16_t`. -/
def is_int16 (n : Int) : Prop :=
  -32768 ≤ n ∧ n ≤ 32767

/-- The axis arguments of a call are within the ranges of the specification
(this restricts `as_api_manual_control` only). -/
def Op.axesInRange : Op → Prop
  | .as_api_manual_control x y z r _ _ =>
    (0 ≤ z ∧ z ≤ 1000) ∧ (-1000 ≤ x ∧ x ≤ 1000) ∧ (-1000 ≤ y ∧ y ≤ 1000) ∧
      (-1000 ≤ r ∧ r ≤ 1000)
  | _ => True

/-- The states reached from process start by calls that returned and whose axis
arguments are within the ranges of the specification. -/
inductive ReachableInRange (cfg : Config) : State → Prop where
  | start : ReachableInRange cfg State.start
  | step {st st' : State} (op : Op) (h : ReachableInRange cfg st)
      (hargs : op.axesInRange) (hstep : op.exec cfg st = .ret () st') :
      ReachableInRange cfg st'

/-- Every setpoint stored in `manual_control_table` is within the ranges. -/
def State.SetpointsInRange (st : State) : Prop :=
  ∀ k mc, entry st.manual_control_table k = some mc → InRange mc

/-- Systems 1 and 2 admitted, 2 armed, after `as_api_manual_control(2000, 0, -1,
0, 0, 2)`. -/
def State.overdriven2 : State :=
  (as_api_manual_control 2000 0 (-1) 0 0 2 State.armed2).state

/-- Systems 1 and 2 admitted, 2 armed, after the call of scenario S2,
`as_api_manual_control(500, -500, 100, 0, 1, 2)`. -/
def State.driven2 : State :=
  (as_api_manual_control 500 (-500) 100 0 1 2 State.armed2).state

/-- System 1 admitted with one queued statustext, after a
`statustex_queue_pop(3)` for system 3, which has no queue. -/
def State.stray_pop : State :=
  (statustex_queue_pop 3 State.pushed1).state

/-! ## Basic facts -/

@[simp] theorem emit_as_init_status (st : State) (e : Event) :
    (st.emit e).as_init_status = st.as_init_status := rfl

@[simp] theorem emit_subnet_address (st : State) (e : Event) :
    (st.emit e).subnet_address = st.subnet_address := rfl

@[simp] theorem emit_message_hash_table (st : State) (e : Event) :
    (st.emit e).message_hash_table = st.message_hash_table := rfl

@[simp] theorem emit_parameter_hash_table (st : State) (e : Event) :
    (st.emit e).parameter_hash_table = st.parameter_hash_table := rfl

@[simp] theorem emit_manual_control_table (st : State) (e : Event) :
    (st.emit e).manual_control_table = st.manual_control_table := rfl

@[simp] theorem emit_target_hash_table (st : State) (e : Event) :
    (st.emit e).target_hash_table = st.target_hash_table := rfl

@[simp] theorem emit_sys_count (st : State) (e : Event) :
    (st.emit e).sys_count = st.sys_count := rfl

@[simp] theorem emit_sys_key (st : State) (e : Event) :
    (st.emit e).sys_key = st.sys_key := rfl

@[simp] theorem emit_vehicle_status (st : State) (e : Event) :
    (st.emit e).vehicle_status = st.vehicle_status := rfl

@[simp] theorem emit_vehicle_data_array (st : State) (e : Event) :
    (st.emit e).vehicle_data_array = st.vehicle_data_array := rfl

@[simp] theorem emit_statustex_queue (st : State) (e : Event) :
    (st.emit e).statustex_queue = st.statustex_queue := rfl

@[simp] theorem emit_named_val_float_queue (st : State) (e : Event) :
    (st.emit e).named_val_float_queue = st.named_val_float_queue := rfl

@[simp] theorem emit_message_queue (st : State) (e : Event) :
    (st.emit e).message_queue = st.message_queue := rfl

@[simp] theorem emit_last_statustex (st : State) (e : Event) :
    (st.emit e).last_statustex = st.last_statustex := rfl

@[simp] theorem emit_last_named_val_float (st : State) (e : Event) :
    (st.emit e).last_named_val_float = st.last_named_val_float := rfl

@[simp] theorem emit_last_mavlink_message (st : State) (e : Event) :
    (st.emit e).last_mavlink_message = st.last_mavlink_message := rfl

@[simp] theorem emit_last_vehicle_data (st : State) (e : Event) :
    (st.emit e).last_vehicle_data = st.last_vehicle_data := rfl

@[simp] theorem emit_statustex_pop_mutex (st : State) (e : Event) :
    (st.emit e).statustex_pop_mutex = st.statustex_pop_mutex := rfl

@[simp] theorem emit_named_val_float_pop_mutex (st : State) (e : Event) :
    (st.emit e).named_val_float_pop_mutex = st.named_val_float_pop_mutex := rfl

@[simp] theorem emit_message_pop_mutex (st : State) (e : Event) :
    (st.emit e).message_pop_mutex = st.message_pop_mutex := rfl

@[simp] theorem logged_as_init_status (st : State) (s : Nat) (f : String) :
    (logged st s f).as_init_status = st.as_init_status := by
  unfold logged; split <;> rfl

@[simp] theorem logged_subnet_address (st : State) (s : Nat) (f : String) :
    (logged st s f).subnet_address = st.subnet_address := by
  unfold logged; split <;> rfl

@[simp] theorem logged_message_hash_table (st : State) (s : Nat) (f : String) :
    (logged st s f).message_hash_table = st.message_hash_table := by
  unfold logged; split <;> rfl

@[simp] theorem logged_parameter_hash_table (st : State) (s : Nat) (f : String) :
    (logged st s f).parameter_hash_table = st.parameter_hash_table := by
  unfold logged; split <;> rfl

@[simp] theorem logged_manual_control_table (st : State) (s : Nat) (f : String) :
    (logged st s f).manual_control_table = st.manual_control_table := by
  unfold logged; split <;> rfl

@[simp] theorem logged_target_hash_table (st : State) (s : Nat) (f : String) :
    (logged st s f).target_hash_table = st.target_hash_table := by
  unfold logged; split <;> rfl

@[simp] theorem logged_sys_count (st : State) (s : Nat) (f : String) :
    (logged st s f).sys_count = st.sys_count := by
  unfold logged; split <;> rfl

@[simp] theorem logged_sys_key (st : State) (s : Nat) (f : String) :
    (logged st s f).sys_key = st.sys_key := by
  unfold logged; split <;> rfl

@[simp] theorem logged_vehicle_status (st : State) (s : Nat) (f : String) :
    (logged st s f).vehicle_status = st.vehicle_status := by
  unfold logged; split <;> rfl

@[simp] theorem logged_vehicle_data_array (st : State) (s : Nat) (f : String) :
    (logged st s f).vehicle_data_array = st.vehicle_data_array := by
  unfold logged; split <;> rfl

@[simp] theorem logged_statustex_queue (st : State) (s : Nat) (f : String) :
    (logged st s f).statustex_queue = st.statustex_queue := by
  unfold logged; split <;> rfl

@[simp] theorem logged_named_val_float_queue (st : State) (s : Nat) (f : String) :
    (logged st s f).named_val_float_queue = st.named_val_float_queue := by
  unfold logged; split <;> rfl

@[simp] theorem logged_message_queue (st : State) (s : Nat) (f : String) :
    (logged st s f).message_queue = st.message_queue := by
  unfold logged; split <;> rfl

@[simp] theorem logged_last_statustex (st : State) (s : Nat) (f : String) :
    (logged st s f).last_statustex = st.last_statustex := by
  unfold logged; split <;> rfl

@[simp] theorem logged_last_named_val_float (st : State) (s : Nat) (f : String) :
    (logged st s f).last_named_val_float = st.last_named_val_float := by
  unfold logged; split <;> rfl

@[simp] theorem logged_last_mavlink_message (st : State) (s : Nat) (f : String) :
    (logged st s f).last_mavlink_message = st.last_mavlink_message := by
  unfold logged; split <;> rfl

@[simp] theorem logged_last_vehicle_data (st : State) (s : Nat) (f : String) :
    (logged st s f).last_vehicle_data = st.last_vehicle_data := by
  unfold logged; split <;> rfl

@[simp] theorem logged_statustex_pop_mutex (st : State) (s : Nat) (f : String) :
    (logged st s f).statustex_pop_mutex = st.statustex_pop_mutex := by
  unfold logged; split <;> rfl

@[simp] theorem logged_named_val_float_pop_mutex (st : State) (s : Nat) (f : String) :
    (logged st s f).named_val_float_pop_mutex = st.named_val_float_pop_mutex := by
  unfold logged; split <;> rfl

@[simp] theorem logged_message_pop_mutex (st : State) (s : Nat) (f : String) :
    (logged st s f).message_pop_mutex = st.message_pop_mutex := by
  unfold logged; split <;> rfl

theorem logged_trace (st : State) (s : Nat) (f : String) :
    (logged st s f).trace =
      st.trace ++ (if check_value st s = 0 then [Event.g_message s f] else []) := by
  unfold logged; split <;> simp [State.emit]

theorem as_api_check_vehicle_eq (s : Nat) (st : State) :
    as_api_check_vehicle s st = .ret (check_value st s) st := by
  unfold as_api_check_vehicle check_value
  split <;> rfl

theorem check_and_log_eq (s : Nat) (f : String) (st : State) :
    check_and_log s f st = .ret (check_value st s) (logged st s f) := by
  unfold check_and_log
  rw [as_api_check_vehicle_eq]
  rfl


@[simp] theorem setAt_same {α : Type} (a : Nat → α) (i : Nat) (v : α) : setAt a i v i = v := by
  simp [setAt]

@[simp] theorem setAt_other {α : Type} (a : Nat → α) (i k : Nat) (v : α) (h : k ≠ i) :
    setAt a i v k = a k := by
  simp [setAt, h]

@[simp] theorem g_async_queue_push_same {α : Type} (a : Nat → Option (List α)) (i : Nat)
    (d : α) : g_async_queue_push a i d i = (a i).map (fun q => q ++ [d]) := by
  simp [g_async_queue_push]

@[simp] theorem emit_trace (st : State) (e : Event) : (st.emit e).trace = st.trace ++ [e] := rfl

/-! ## The queues: what one push does -/

/-- One `statustex_queue_push` on an existing queue `q` with the pop mutex free:
the call returns; the oldest element is dropped first exactly when `q` is longer
than `MAX_STATUSTEX`. -/
theorem statustex_queue_push_spec (cfg : Config) (ts : Nat) (m : Mavlink_Messages_t)
    (st : State) (q : List mavlink_statustext_t)
    (hq : st.statustex_queue ts = some q) (hm : st.statustex_pop_mutex = false) :
    ∃ st', statustex_queue_push cfg ts (some m) st = .ret () st' ∧
      st'.statustex_pop_mutex = false ∧
      st'.statustex_queue ts =
        some ((if q.length > cfg.MAX_STATUSTEX then q.tail else q) ++ [m.statustext]) := by
  unfold statustex_queue_push
  simp only [hq]
  by_cases hlen : q.length > cfg.MAX_STATUSTEX
  · cases q with
    | nil => simp at hlen
    | cons a rest =>
      have hlen' : cfg.MAX_STATUSTEX < rest.length + 1 := by simpa using hlen
      simp [hlen', statustex_queue_pop, State.emit, hm, hq]
  · simp [hlen, hm, hq]

/-- One `named_val_float_queue_push` on an existing queue `q` with the pop mutex free. -/
theorem named_val_float_queue_push_spec (cfg : Config) (ts : Nat) (m : Mavlink_Messages_t)
    (st : State) (q : List mavlink_named_value_float_t)
    (hq : st.named_val_float_queue ts = some q) (hm : st.named_val_float_pop_mutex = false) :
    ∃ st', named_val_float_queue_push cfg ts (some m) st = .ret () st' ∧
      st'.named_val_float_pop_mutex = false ∧
      st'.named_val_float_queue ts =
        some ((if q.length > cfg.MAX_NAMED_VALUE_FLOAT then q.tail else q) ++
          [m.named_value_float]) := by
  unfold named_val_float_queue_push
  simp only [hq]
  by_cases hlen : q.length > cfg.MAX_NAMED_VALUE_FLOAT
  · cases q with
    | nil => simp at hlen
    | cons a rest =>
      have hlen' : cfg.MAX_NAMED_VALUE_FLOAT < rest.length + 1 := by simpa using hlen
      simp [hlen', named_val_float_queue_pop, State.emit, hm, hq]
  · simp [hlen, hm, hq]

/-- One `message_queue_push` on an existing queue `q` with the pop mutex free. -/
theorem message_queue_push_spec (cfg : Config) (ts : Nat) (m : Mavlink_Messages_t)
    (st : State) (q : List Mavlink_Messages_t)
    (hq : st.message_queue ts = some q) (hm : st.message_pop_mutex = false) :
    ∃ st', message_queue_push cfg ts (some m) st = .ret () st' ∧
      st'.message_pop_mutex = false ∧
      st'.message_queue ts =
        some ((if q.length > cfg.MAX_MESSAGE then q.tail else q) ++ [m]) := by
  unfold message_queue_push
  simp only [hq]
  by_cases hlen : q.length > cfg.MAX_MESSAGE
  · cases q with
    | nil => simp at hlen
    | cons a rest =>
      have hlen' : cfg.MAX_MESSAGE < rest.length + 1 := by simpa using hlen
      simp [hlen', message_queue_pop, State.emit, hm, hq]
  · simp [hlen, hm, hq]

/-- Length of a queue after one push: one more, but never beyond `cap + 2`
going down to `cap + 1`. -/
theorem length_after_push {α : Type} (cap : Nat) (q : List α) (d : α)
    (h : q.length ≤ cap + 1) :
    ((if q.length > cap then q.tail else q) ++ [d]).length = min (q.length + 1) (cap + 1) := by
  by_cases hlen : q.length > cap
  · simp [hlen, List.length_tail]; omega
  · simp [hlen]; omega

/-- Any number of `statustex_queue_push` calls on a queue of length at most
`MAX_STATUSTEX + 1`: all return, and the length is `min (old + n) (MAX_STATUSTEX + 1)`. -/
theorem statustex_pushes_length (cfg : Config) (ts : Nat) (msgs : List Mavlink_Messages_t) :
    ∀ (st : State) (q : List mavlink_statustext_t),
      st.statustex_queue ts = some q → st.statustex_pop_mutex = false →
      q.length ≤ cfg.MAX_STATUSTEX + 1 →
      ∃ st' q', statustex_pushes cfg ts msgs st = .ret () st' ∧
        st'.statustex_queue ts = some q' ∧
        q'.length = min (q.length + msgs.length) (cfg.MAX_STATUSTEX + 1) := by
  induction msgs with
  | nil =>
    intro st q hq _ hlen
    exact ⟨st, q, rfl, hq, by simp; omega⟩
  | cons m ms ih =>
    intro st q hq hm hlen
    obtain ⟨s1, h1, hm1, hq1⟩ := statustex_queue_push_spec cfg ts m st q hq hm
    have hl := length_after_push cfg.MAX_STATUSTEX q m.statustext hlen
    obtain ⟨st', q', h2, hq2, hl2⟩ := ih s1 _ hq1 hm1 (by rw [hl]; omega)
    refine ⟨st', q', ?_, hq2, ?_⟩
    · simp [statustex_pushes, h1, h2]
    · rw [hl2, hl]; simp only [List.length_cons]; omega

/-- The same for `named_val_float_queue_push`. -/
theorem named_val_float_pushes_length (cfg : Config) (ts : Nat)
    (msgs : List Mavlink_Messages_t) :
    ∀ (st : State) (q : List mavlink_named_value_float_t),
      st.named_val_float_queue ts = some q → st.named_val_float_pop_mutex = false →
      q.length ≤ cfg.MAX_NAMED_VALUE_FLOAT + 1 →
      ∃ st' q', named_val_float_pushes cfg ts msgs st = .ret () st' ∧
        st'.named_val_float_queue ts = some q' ∧
        q'.length = min (q.length + msgs.length) (cfg.MAX_NAMED_VALUE_FLOAT + 1) := by
  induction msgs with
  | nil =>
    intro st q hq _ hlen
    exact ⟨st, q, rfl, hq, by simp; omega⟩
  | cons m ms ih =>
    intro st q hq hm hlen
    obtain ⟨s1, h1, hm1, hq1⟩ := named_val_float_queue_push_spec cfg ts m st q hq hm
    have hl := length_after_push cfg.MAX_NAMED_VALUE_FLOAT q m.named_value_float hlen
    obtain ⟨st', q', h2, hq2, hl2⟩ := ih s1 _ hq1 hm1 (by rw [hl]; omega)
    refine ⟨st', q', ?_, hq2, ?_⟩
    · simp [named_val_float_pushes, h1, h2]
    · rw [hl2, hl]; simp only [List.length_cons]; omega

/-- The same for `message_queue_push`. -/
theorem message_pushes_length (cfg : Config) (ts : Nat) (msgs : List Mavlink_Messages_t) :
    ∀ (st : State) (q : List Mavlink_Messages_t),
      st.message_queue ts = some q → st.message_pop_mutex = false →
      q.length ≤ cfg.MAX_MESSAGE + 1 →
      ∃ st' q', message_pushes cfg ts msgs st = .ret () st' ∧
        st'.message_queue ts = some q' ∧
        q'.length = min (q.length + msgs.length) (cfg.MAX_MESSAGE + 1) := by
  induction msgs with
  | nil =>
    intro st q hq _ hlen
    exact ⟨st, q, rfl, hq, by simp; omega⟩
  | cons m ms ih =>
    intro st q hq hm hlen
    obtain ⟨s1, h1, hm1, hq1⟩ := message_queue_push_spec cfg ts m st q hq hm
    have hl := length_after_push cfg.MAX_MESSAGE q m hlen
    obtain ⟨st', q', h2, hq2, hl2⟩ := ih s1 _ hq1 hm1 (by rw [hl]; omega)
    refine ⟨st', q', ?_, hq2, ?_⟩
    · simp [message_pushes, h1, h2]
    · rw [hl2, hl]; simp only [List.length_cons]; omega

/-! ## Calls that leave the sessions alone -/

theorem SameSessions.refl (st : State) : SameSessions st st :=
  ⟨rfl, rfl, rfl, rfl, rfl, rfl, rfl, rfl⟩

theorem SameSessions.trans {a b c : State} (h1 : SameSessions a b) (h2 : SameSessions b c) :
    SameSessions a c :=
  ⟨h2.1.trans h1.1, h2.2.trans h1.2, h2.3.trans h1.3, h2.4.trans h1.4, h2.5.trans h1.5,
    h2.6.trans h1.6, h2.7.trans h1.7, h2.8.trans h1.8⟩

theorem SameSessions.emit (st : State) (e : Event) : SameSessions st (st.emit e) :=
  ⟨rfl, rfl, rfl, rfl, rfl, rfl, rfl, rfl⟩

theorem SameSessions.logged (st : State) (s : Nat) (f : String) :
    SameSessions st (logged st s f) := by
  unfold Ardusub.logged; split
  · exact SameSessions.emit _ _
  · exact SameSessions.refl _

theorem statustex_queue_pop_same (ts : Nat) (st : State) :
    SameSessions st (statustex_queue_pop ts st).state := by
  unfold statustex_queue_pop
  split
  · exact SameSessions.refl _
  · split <;> exact ⟨rfl, rfl, rfl, rfl, rfl, rfl, rfl, rfl⟩

theorem named_val_float_queue_pop_same (ts : Nat) (st : State) :
    SameSessions st (named_val_float_queue_pop ts st).state := by
  unfold named_val_float_queue_pop
  split
  · exact SameSessions.refl _
  · split <;> exact ⟨rfl, rfl, rfl, rfl, rfl, rfl, rfl, rfl⟩

theorem message_queue_pop_same (ts : Nat) (st : State) :
    SameSessions st (message_queue_pop ts st).state := by
  unfold message_queue_pop
  split
  · exact SameSessions.refl _
  · split <;> exact ⟨rfl, rfl, rfl, rfl, rfl, rfl, rfl, rfl⟩

theorem statustex_queue_push_same (cfg : Config) (ts : Nat) (m : Option Mavlink_Messages_t)
    (st : State) : SameSessions st (statustex_queue_push cfg ts m st).state := by
  unfold statustex_queue_push
  split
  · exact SameSessions.refl _
  · split
    · exact SameSessions.refl _
    · split
      · have h := statustex_queue_pop_same ts (st.emit (.g_critical "MAX_STATUSTEX reached!"))
        split
        · rename_i heq; rw [heq] at h; exact (SameSessions.emit _ _).trans h
        · rename_i heq; rw [heq] at h
          exact ((SameSessions.emit _ _).trans h).trans ⟨rfl, rfl, rfl, rfl, rfl, rfl, rfl, rfl⟩
      · exact ⟨rfl, rfl, rfl, rfl, rfl, rfl, rfl, rfl⟩


theorem named_val_float_queue_push_same (cfg : Config) (ts : Nat)
    (m : Option Mavlink_Messages_t) (st : State) :
    SameSessions st (named_val_float_queue_push cfg ts m st).state := by
  unfold named_val_float_queue_push
  split
  · exact SameSessions.refl _
  · split
    · exact SameSessions.refl _
    · split
      · have h := named_val_float_queue_pop_same ts
          (st.emit (.g_critical "MAX_NAMED_VALUE_FLOAT reached!"))
        split
        · rename_i heq; rw [heq] at h; exact (SameSessions.emit _ _).trans h
        · rename_i heq; rw [heq] at h
          exact ((SameSessions.emit _ _).trans h).trans ⟨rfl, rfl, rfl, rfl, rfl, rfl, rfl, rfl⟩
      · exact ⟨rfl, rfl, rfl, rfl, rfl, rfl, rfl, rfl⟩

theorem message_queue_push_same (cfg : Config) (ts : Nat) (m : Option Mavlink_Messages_t)
    (st : State) : SameSessions st (message_queue_push cfg ts m st).state := by
  unfold message_queue_push
  split
  · exact SameSessions.refl _
  · split
    · exact SameSessions.refl _
    · split
      · have h := message_queue_pop_same ts (st.emit (.g_critical "MAX_MESSAGE reached!"))
        split
        · rename_i heq; rw [heq] at h; exact (SameSessions.emit _ _).trans h
        · rename_i heq; rw [heq] at h
          exact ((SameSessions.emit _ _).trans h).trans ⟨rfl, rfl, rfl, rfl, rfl, rfl, rfl, rfl⟩
      · exact ⟨rfl, rfl, rfl, rfl, rfl, rfl, rfl, rfl⟩

@[simp] theorem void_state {α : Type} (o : Outcome α) : o.void.state = o.state := by
  cases o <;> rfl

theorem as_api_statustex_queue_pop_same (ts : Nat) (st : State) :
    SameSessions st (as_api_statustex_queue_pop ts st).state := by
  unfold as_api_statustex_queue_pop
  rw [as_api_check_vehicle_eq]
  simp only
  split
  · exact SameSessions.emit _ _
  · exact statustex_queue_pop_same ts st

theorem as_api_statustex_count_same (ts : Nat) (st : State) :
    SameSessions st (as_api_statustex_count ts st).state := by
  unfold as_api_statustex_count
  rw [as_api_check_vehicle_eq]
  simp only
  split
  · exact SameSessions.emit _ _
  · exact SameSessions.refl _

theorem as_get_meaasge_same (s : Nat) (st : State) :
    SameSessions st (as_get_meaasge s st).state := by
  unfold as_get_meaasge
  repeat' split
  all_goals exact SameSessions.refl _

theorem as_api_get_vehicle_data_same (s : Nat) (st : State) :
    SameSessions st (as_api_get_vehicle_data s st).state := by
  unfold as_api_get_vehicle_data
  rw [check_and_log_eq]
  exact (SameSessions.logged st s _).trans ⟨rfl, rfl, rfl, rfl, rfl, rfl, rfl, rfl⟩

/-- Every call other than init, admission, manual control, arm and disarm leaves
the session registry and all statuses as they were. -/
theorem exec_same_sessions (cfg : Config) (op : Op) (st : State)
    (h : op.touchesSessions = false) : SameSessions st (op.exec cfg st).state := by
  cases op with
  | as_api_init p => simp [Op.touchesSessions] at h
  | as_system_add ts ta m p sock chan => simp [Op.touchesSessions] at h
  | as_api_manual_control x y z r b va => simp [Op.touchesSessions] at h
  | as_api_vehicle_arm ts ta => simp [Op.touchesSessions] at h
  | as_api_vehicle_disarm ts ta => simp [Op.touchesSessions] at h
  | as_api_deinit => exact SameSessions.refl _
  | as_api_get_vehicle_data ts =>
    simpa [Op.exec] using as_api_get_vehicle_data_same ts st
  | as_get_meaasge s => simpa [Op.exec] using as_get_meaasge_same s st
  | as_api_check_vehicle s =>
    simp only [Op.exec, as_api_check_vehicle_eq]; exact SameSessions.refl _
  | as_api_set_servo ts ta n pwm => exact SameSessions.emit _ _
  | as_api_motor_test ts ta n pwm => exact SameSessions.emit _ _
  | as_api_set_mode ts mode => exact SameSessions.emit _ _
  | as_request_full_parameters ts tc => exact SameSessions.emit _ _
  | as_api_send_rc_channels_override ts ta c1 c2 c3 c4 c5 c6 c7 c8 =>
    exact SameSessions.emit _ _
  | as_send_request_data_stream ts tc i rate ss => exact SameSessions.emit _ _
  | as_reauest_data_stream ts tc => exact SameSessions.emit _ _
  | as_api_statustex_queue_pop ts =>
    simpa [Op.exec] using as_api_statustex_queue_pop_same ts st
  | as_api_statustex_count ts => simpa [Op.exec] using as_api_statustex_count_same ts st
  | statustex_queue_pop ts => simpa [Op.exec] using statustex_queue_pop_same ts st
  | statustex_queue_push ts m => exact statustex_queue_push_same cfg ts m st
  | named_val_float_queue_pop ts =>
    simpa [Op.exec] using named_val_float_queue_pop_same ts st
  | named_val_float_queue_push ts m => exact named_val_float_queue_push_same cfg ts m st
  | message_queue_pop ts => simpa [Op.exec] using message_queue_pop_same ts st
  | message_queue_push ts m => exact message_queue_push_same cfg ts m st

/-! ## Normal forms of init, arm, disarm and manual control -/

theorem as_api_vehicle_arm_eq (cfg : Config) (ts ta : Nat) (st : State) :
    as_api_vehicle_arm cfg ts ta st =
      match g_hash_table_lookup st.manual_control_table (st.sys_key ts) with
      | .error why => .halt why (logged st ts "as_api_vehicle_arm")
      | .ok none => .halt .assert_fail (logged st ts "as_api_vehicle_arm")
      | .ok (some _) =>
        .ret () (send_mavlink_message ts
          (encode cfg (.command_long (arm_disarm_cmd ts ta 1)))
          { logged st ts "as_api_vehicle_arm" with
            manual_control_table :=
              g_hash_table_poke st.manual_control_table (st.sys_key ts) clear_manual_control
            vehicle_status := setAt st.vehicle_status ts VehicleStatus.SYS_ARMED }) := by
  unfold as_api_vehicle_arm
  rw [check_and_log_eq]
  simp only [logged_manual_control_table, logged_sys_key, logged_vehicle_status]

theorem as_api_vehicle_disarm_eq (cfg : Config) (ts ta : Nat) (st : State) :
    as_api_vehicle_disarm cfg ts ta st =
      match g_hash_table_lookup st.manual_control_table (st.sys_key ts) with
      | .error why =>
        .halt why { send_mavlink_message ts
            (encode cfg (.command_long (arm_disarm_cmd ts ta 0)))
            (logged st ts "as_api_vehicle_disarm") with
          vehicle_status := setAt st.vehicle_status ts VehicleStatus.SYS_DISARMED }
      | .ok none =>
        .halt .assert_fail { send_mavlink_message ts
            (encode cfg (.command_long (arm_disarm_cmd ts ta 0)))
            (logged st ts "as_api_vehicle_disarm") with
          vehicle_status := setAt st.vehicle_status ts VehicleStatus.SYS_DISARMED }
      | .ok (some _) =>
        .ret () { send_mavlink_message ts
            (encode cfg (.command_long (arm_disarm_cmd ts ta 0)))
            (logged st ts "as_api_vehicle_disarm") with
          vehicle_status := setAt st.vehicle_status ts VehicleStatus.SYS_DISARMED
          manual_control_table :=
            g_hash_table_poke st.manual_control_table (st.sys_key ts) clear_manual_control } := by
  unfold as_api_vehicle_disarm
  rw [check_and_log_eq]
  simp only [send_mavlink_message, emit_manual_control_table, emit_sys_key,
    emit_vehicle_status, logged_manual_control_table, logged_sys_key, logged_vehicle_status]

theorem as_api_manual_control_eq (x y z r : Int) (b : Nat) (va : Int) (st : State) :
    as_api_manual_control x y z r b va st =
      if st.vehicle_status (manual_control_sys_id st va) ≠ VehicleStatus.SYS_ARMED then
        .ret () (logged st (manual_control_sys_id st va) "as_api_manual_control")
      else
        match g_hash_table_lookup st.manual_control_table
            (st.sys_key (manual_control_sys_id st va)) with
        | .error why =>
          .halt why (logged st (manual_control_sys_id st va) "as_api_manual_control")
        | .ok none =>
          .halt .fault (logged st (manual_control_sys_id st va) "as_api_manual_control")
        | .ok (some _) =>
          .ret () { logged st (manual_control_sys_id st va) "as_api_manual_control" with
            manual_control_table :=
              g_hash_table_poke st.manual_control_table
                (st.sys_key (manual_control_sys_id st va))
                (fun p => { p with x := x, y := y, z := z, r := r, buttons := b }) } := by
  unfold as_api_manual_control
  simp only [check_and_log_eq, logged_manual_control_table, logged_sys_key,
    logged_vehicle_status]

theorem lookup_setpoint_poke (table : Option (Nat → Option mavlink_manual_control_t))
    (key key' : Option Nat) (f : mavlink_manual_control_t → mavlink_manual_control_t) :
    lookup_setpoint (g_hash_table_poke table key f) key' =
      if key' = key then (lookup_setpoint table key').map f else lookup_setpoint table key' := by
  cases table with
  | none => simp [lookup_setpoint, g_hash_table_poke, g_hash_table_lookup]
  | some t =>
    cases key' with
    | none => simp [lookup_setpoint, g_hash_table_poke, g_hash_table_lookup]
    | some k =>
      by_cases h : some k = key
      · simp [lookup_setpoint, g_hash_table_poke, g_hash_table_lookup, h]
      · simp [lookup_setpoint, g_hash_table_poke, g_hash_table_lookup, h]

theorem lookup_eq_of_setpoint {table : Option (Nat → Option mavlink_manual_control_t)}
    {key : Option Nat} {mc : mavlink_manual_control_t}
    (h : lookup_setpoint table key = some mc) :
    g_hash_table_lookup table key = .ok (some mc) := by
  unfold lookup_setpoint at h
  split at h
  · rename_i v heq; rw [heq, h]
  · cases h

theorem as_api_init_status_same (cfg : Config) (p : Option String) (st : State) :
    (as_api_init cfg p st).state.vehicle_status = st.vehicle_status := by
  unfold as_api_init
  split <;> rfl

theorem as_system_add_status_same (ts ta : Nat) (m : Option Mavlink_Messages_t)
    (p : Option Mavlink_Parameter_t) (sock chan : Option Nat) (st : State) :
    (as_system_add ts ta m p sock chan st).state.vehicle_status = st.vehicle_status := by
  unfold as_system_add as_request_full_parameters as_reauest_data_stream
  cases m <;> cases p <;> cases sock <;> cases chan <;> rfl

theorem as_api_manual_control_status_same (x y z r : Int) (b : Nat) (va : Int) (st : State) :
    (as_api_manual_control x y z r b va st).state.vehicle_status = st.vehicle_status := by
  rw [as_api_manual_control_eq]
  repeat' split
  all_goals simp [Outcome.state]

/-! ## What an admission leaves -/

/-- With a message set, a parameter map and at least one transport,
`as_system_add` returns. -/
theorem as_system_add_returns (ts ta : Nat) (msgs : Mavlink_Messages_t)
    (params : Mavlink_Parameter_t) (sock chan : Option Nat) (st : State)
    (hvalid : sock ≠ none ∨ chan ≠ none) :
    ∃ st', as_system_add ts ta (some msgs) (some params) sock chan st = .ret () st' := by
  unfold as_system_add as_request_full_parameters as_reauest_data_stream
  cases sock <;> cases chan
  · simp at hvalid
  all_goals exact ⟨_, rfl⟩

/-- A call of `as_system_add` that returned had valid arguments and left the
registry as described. -/
theorem as_system_add_ret {ts ta : Nat} {m : Option Mavlink_Messages_t}
    {p : Option Mavlink_Parameter_t} {sock chan : Option Nat} {st st' : State}
    (h : as_system_add ts ta m p sock chan st = .ret () st') :
    (∃ msgs params, m = some msgs ∧ p = some params ∧
      st'.message_hash_table = g_hash_table_insert st.message_hash_table ts msgs ∧
      st'.parameter_hash_table = g_hash_table_insert st.parameter_hash_table ts params) ∧
    (sock ≠ none ∨ chan ≠ none) ∧
    (∀ c, chan = some c → st'.target_hash_table =
      (st.target_hash_table.map fun t => setAt t ts (some (Target.serial_chan c)))) ∧
    (∀ k, chan = none → sock = some k → st'.target_hash_table =
      g_hash_table_insert st.target_hash_table ts (Target.socket k)) ∧
    st'.manual_control_table =
      g_hash_table_insert st.manual_control_table ts initial_manual_control ∧
    st'.sys_key = setAt st.sys_key ts (some ts) ∧
    st'.statustex_queue = setAt st.statustex_queue ts (some []) ∧
    st'.named_val_float_queue = setAt st.named_val_float_queue ts (some []) ∧
    st'.message_queue = setAt st.message_queue ts (some []) ∧
    st'.vehicle_data_array = setAt st.vehicle_data_array ts (some { content := 0 }) ∧
    st'.sys_count = wrap32 (st.sys_count + 1) ∧
    st'.vehicle_status = st.vehicle_status ∧
    st'.as_init_status = st.as_init_status := by
  unfold as_system_add as_request_full_parameters as_reauest_data_stream at h
  cases m with
  | none => cases h
  | some msgs =>
    cases p with
    | none => cases h
    | some params =>
      cases sock with
      | none =>
        cases chan with
        | none => simp at h
        | some c =>
          injection h with _ h2
          subst h2
          refine ⟨⟨msgs, params, rfl, rfl, rfl, rfl⟩, by simp, ?_, ?_, rfl, rfl, rfl, rfl, rfl,
            rfl, rfl, rfl, rfl⟩
          · intro c' hc; cases hc; rfl
          · intro k hk; cases hk
      | some k =>
        cases chan with
        | none =>
          injection h with _ h2
          subst h2
          refine ⟨⟨msgs, params, rfl, rfl, rfl, rfl⟩, by simp, ?_, ?_, rfl, rfl, rfl, rfl, rfl,
            rfl, rfl, rfl, rfl⟩
          · intro c' hc; cases hc
          · intro k' _ hk; cases hk; rfl
        | some c =>
          injection h with _ h2
          subst h2
          refine ⟨⟨msgs, params, rfl, rfl, rfl, rfl⟩, by simp, ?_, ?_, rfl, rfl, rfl, rfl, rfl,
            rfl, rfl, rfl, rfl⟩
          · intro c' hc; cases hc
            cases hT : st.target_hash_table with
            | none => simp [g_hash_table_insert, State.emit, hT]
            | some t =>
              simp only [g_hash_table_insert, State.emit, hT, Option.map_some']
              congr 1
              funext i
              by_cases hi : i = ts <;> simp [setAt, hi]
          · intro k' hk; cases hk

/-! ## The registry stays well formed -/

theorem lookup_setpoint_insert (table : Option (Nat → Option mavlink_manual_control_t))
    (ts k : Nat) (v : mavlink_manual_control_t) :
    lookup_setpoint (g_hash_table_insert table ts v) (some k) =
      if k = ts then table.map (fun _ => v) else lookup_setpoint table (some k) := by
  cases table with
  | none => simp [lookup_setpoint, g_hash_table_insert, g_hash_table_lookup]
  | some t =>
    by_cases h : k = ts <;>
      simp [lookup_setpoint, g_hash_table_insert, g_hash_table_lookup, setAt, h]

theorem WF_of_same {st st' : State} (h : SameSessions st st') (hwf : st.WF) : st'.WF := by
  refine ⟨?_, ?_, ?_⟩
  · intro s k hk; rw [h.sys_key] at hk; exact hwf.key_self s k hk
  · intro s hs
    rw [h.vehicle_status] at hs
    rw [h.manual_control_table, h.sys_key]
    exact hwf.armed_has_setpoint s hs
  · intro hi
    rw [h.as_init_status] at hi
    rw [h.manual_control_table]
    exact hwf.tables_after_init hi

theorem WF_start : State.start.WF := by
  refine ⟨?_, ?_, ?_⟩
  · intro s k hk; cases hk
  · intro s hs; cases hs
  · intro _; rfl

theorem WF_as_api_init (cfg : Config) (p : Option String) {st st' : State} (hwf : st.WF)
    (h : as_api_init cfg p st = .ret () st') : st'.WF := by
  unfold as_api_init at h
  split at h
  · injection h with _ h2; subst h2; exact hwf
  · rename_i hi
    injection h with _ h2
    subst h2
    have hnone : st.manual_control_table = none := hwf.tables_after_init (by simpa using hi)
    refine ⟨?_, ?_, ?_⟩
    · intro s k hk; exact hwf.key_self s k hk
    · intro s hs
      obtain ⟨mc, hmc⟩ := hwf.armed_has_setpoint s hs
      rw [hnone] at hmc
      cases hmc
    · intro hf; cases hf

theorem WF_as_system_add {ts ta : Nat} {m : Option Mavlink_Messages_t}
    {p : Option Mavlink_Parameter_t} {sock chan : Option Nat} {st st' : State} (hwf : st.WF)
    (h : as_system_add ts ta m p sock chan st = .ret () st') : st'.WF := by
  obtain ⟨-, -, -, -, hmc, hkey, -, -, -, -, -, hvs, hinit⟩ := as_system_add_ret h
  refine ⟨?_, ?_, ?_⟩
  · intro s k hk
    rw [hkey] at hk
    by_cases hs : s = ts
    · subst hs; simp at hk; exact hk.symm
    · rw [setAt_other _ _ _ _ hs] at hk; exact hwf.key_self s k hk
  · intro s hs
    rw [hvs] at hs
    obtain ⟨mc, hmc0⟩ := hwf.armed_has_setpoint s hs
    rw [hmc, hkey]
    cases hT : st.manual_control_table with
    | none => rw [hT] at hmc0; cases hmc0
    | some t =>
      by_cases hst : s = ts
      · subst hst
        exact ⟨initial_manual_control, by simp [lookup_setpoint_insert]⟩
      · rw [setAt_other _ _ _ _ hst]
        cases hk : st.sys_key s with
        | none => rw [hk, hT] at hmc0; simp [lookup_setpoint, g_hash_table_lookup] at hmc0
        | some k =>
          have hks : k = s := hwf.key_self s k hk
          subst hks
          refine ⟨mc, ?_⟩
          rw [lookup_setpoint_insert, if_neg hst, ← hT, ← hk]
          exact hmc0
  · intro hi
    rw [hinit] at hi
    rw [hmc, hwf.tables_after_init hi]
    rfl

theorem poke_eq_none_iff {β : Type} (table : Option (Nat → Option β)) (key : Option Nat)
    (f : β → β) : g_hash_table_poke table key f = none ↔ table = none := by
  cases table <;> simp [g_hash_table_poke]

/-- A state that differs from a well-formed one by writes through setpoint
pointers and by a status that is Armed only where a setpoint exists. -/
theorem WF_poke {st st' : State} (hwf : st.WF) (key : Option Nat)
    (f : mavlink_manual_control_t → mavlink_manual_control_t)
    (hkey : st'.sys_key = st.sys_key) (hinit : st'.as_init_status = st.as_init_status)
    (htab : st'.manual_control_table = g_hash_table_poke st.manual_control_table key f)
    (hvs : ∀ s, st'.vehicle_status s = VehicleStatus.SYS_ARMED →
      ∃ mc, lookup_setpoint st.manual_control_table (st.sys_key s) = some mc) : st'.WF := by
  refine ⟨?_, ?_, ?_⟩
  · intro s k hk; rw [hkey] at hk; exact hwf.key_self s k hk
  · intro s hs
    obtain ⟨mc, hmc⟩ := hvs s hs
    rw [htab, hkey, lookup_setpoint_poke, hmc]
    split
    · exact ⟨f mc, rfl⟩
    · exact ⟨mc, rfl⟩
  · intro hi
    rw [hinit] at hi
    rw [htab, poke_eq_none_iff]
    exact hwf.tables_after_init hi

theorem WF_logged {st : State} (hwf : st.WF) (s : Nat) (f : String) : (logged st s f).WF :=
  WF_of_same (SameSessions.logged st s f) hwf

theorem WF_as_api_manual_control {x y z r : Int} {b : Nat} {va : Int} {st st' : State}
    (hwf : st.WF) (h : as_api_manual_control x y z r b va st = .ret () st') : st'.WF := by
  rw [as_api_manual_control_eq] at h
  split at h
  · injection h with _ h2; subst h2; exact WF_logged hwf _ _
  · split at h
    · cases h
    · cases h
    · injection h with _ h2
      subst h2
      exact WF_poke hwf (st.sys_key (manual_control_sys_id st va))
        (fun p => { p with x := x, y := y, z := z, r := r, buttons := b })
        (by simp) (by simp) rfl
        (fun s hs => hwf.armed_has_setpoint s (by simpa using hs))

theorem WF_as_api_vehicle_arm {cfg : Config} {ts ta : Nat} {st st' : State}
    (hwf : st.WF) (h : as_api_vehicle_arm cfg ts ta st = .ret () st') : st'.WF := by
  rw [as_api_vehicle_arm_eq] at h
  split at h
  · cases h
  · cases h
  · rename_i mc hlook
    injection h with _ h2
    subst h2
    refine WF_poke hwf (st.sys_key ts) clear_manual_control (by simp [send_mavlink_message])
      (by simp [send_mavlink_message]) (by simp [send_mavlink_message]) ?_
    intro s hs
    by_cases hst : s = ts
    · subst hst
      exact ⟨mc, by simp [lookup_setpoint, hlook]⟩
    · simp [send_mavlink_message, hst] at hs
      exact hwf.armed_has_setpoint s hs

theorem WF_as_api_vehicle_disarm {cfg : Config} {ts ta : Nat} {st st' : State}
    (hwf : st.WF) (h : as_api_vehicle_disarm cfg ts ta st = .ret () st') : st'.WF := by
  rw [as_api_vehicle_disarm_eq] at h
  split at h
  · cases h
  · cases h
  · injection h with _ h2
    subst h2
    refine WF_poke hwf (st.sys_key ts) clear_manual_control (by simp [send_mavlink_message])
      (by simp [send_mavlink_message]) (by simp [send_mavlink_message]) ?_
    intro s hs
    by_cases hst : s = ts
    · subst hst
      simp at hs
    · simp [hst] at hs
      exact hwf.armed_has_setpoint s hs

/-- Every state the process reaches between calls has a well-formed registry. -/
theorem reachable_WF (cfg : Config) {st : State} (h : Reachable cfg st) : st.WF := by
  induction h with
  | start => exact WF_start
  | @step st st' op _ hstep ih =>
    by_cases ht : op.touchesSessions = false
    · have hs := exec_same_sessions cfg op st ht
      rw [hstep] at hs
      exact WF_of_same hs ih
    · cases op with
      | as_api_init p => exact WF_as_api_init cfg p ih hstep
      | as_system_add ts ta m p sock chan => exact WF_as_system_add ih hstep
      | as_api_manual_control x y z r b va => exact WF_as_api_manual_control ih hstep
      | as_api_vehicle_arm ts ta => exact WF_as_api_vehicle_arm ih hstep
      | as_api_vehicle_disarm ts ta => exact WF_as_api_vehicle_disarm ih hstep
      | _ => simp [Op.touchesSessions] at ht

/-! ## Arm and disarm on an admitted session -/

theorem setpoint_eq (st : State) (s : Nat) :
    setpoint st s = lookup_setpoint st.manual_control_table (st.sys_key s) := rfl

theorem as_api_vehicle_arm_admitted (cfg : Config) (s a : Nat) (st : State)
    (mc : mavlink_manual_control_t) (h : setpoint st s = some mc) :
    ∃ st', as_api_vehicle_arm cfg s a st = .ret () st' ∧
      setpoint st' s = some (clear_manual_control mc) ∧
      st'.vehicle_status s = VehicleStatus.SYS_ARMED ∧
      st'.trace = st.trace ++
        (if check_value st s = 0 then [Event.g_message s "as_api_vehicle_arm"] else []) ++
        [Event.send_mavlink_message s (arm_disarm_message cfg s a 1)] := by
  rw [as_api_vehicle_arm_eq, lookup_eq_of_setpoint h]
  refine ⟨_, rfl, ?_, ?_, ?_⟩
  · rw [setpoint_eq] at h
    simp [setpoint_eq, send_mavlink_message, lookup_setpoint_poke, h]
  · simp [send_mavlink_message]
  · simp [send_mavlink_message, logged_trace, arm_disarm_message, encode, arm_disarm_cmd]

theorem as_api_vehicle_disarm_admitted (cfg : Config) (s a : Nat) (st : State)
    (mc : mavlink_manual_control_t) (h : setpoint st s = some mc) :
    ∃ st', as_api_vehicle_disarm cfg s a st = .ret () st' ∧
      setpoint st' s = some (clear_manual_control mc) ∧
      st'.vehicle_status s = VehicleStatus.SYS_DISARMED ∧
      st'.trace = st.trace ++
        (if check_value st s = 0 then [Event.g_message s "as_api_vehicle_disarm"] else []) ++
        [Event.send_mavlink_message s (arm_disarm_message cfg s a 0)] := by
  rw [as_api_vehicle_disarm_eq, lookup_eq_of_setpoint h]
  refine ⟨_, rfl, ?_, ?_, ?_⟩
  · rw [setpoint_eq] at h
    simp [setpoint_eq, send_mavlink_message, lookup_setpoint_poke, h]
  · simp [send_mavlink_message]
  · simp [send_mavlink_message, logged_trace, arm_disarm_message, encode, arm_disarm_cmd]

theorem reachable_admitted1 : Reachable Config.sample State.admitted1 :=
  Reachable.step (Op.as_system_add 1 1 (some (Mavlink_Messages_t.sample 10))
      (some { handle := 11 }) (some 12) none)
    (Reachable.step (Op.as_api_init none) Reachable.start rfl) rfl

theorem reachable_admitted12 : Reachable Config.sample State.admitted12 :=
  Reachable.step (Op.as_system_add 2 1 (some (Mavlink_Messages_t.sample 20))
      (some { handle := 21 }) (some 22) none) reachable_admitted1 rfl

theorem reachable_armed2 : Reachable Config.sample State.armed2 :=
  Reachable.step (Op.as_api_vehicle_arm 2 1) reachable_admitted12 rfl

/-! ## Admission and invariant I1 -/

theorem as_system_add_trace {ts ta : Nat} {m : Option Mavlink_Messages_t}
    {p : Option Mavlink_Parameter_t} {sock chan : Option Nat} {st st' : State}
    (h : as_system_add ts ta m p sock chan st = .ret () st') :
    st'.trace = st.trace ++ admission_events ts ta sock chan := by
  unfold as_system_add as_request_full_parameters as_reauest_data_stream at h
  cases m with
  | none => cases h
  | some msgs =>
    cases p with
    | none => cases h
    | some params =>
      cases sock <;> cases chan
      · simp at h
      all_goals
        injection h with _ h2
        subst h2
        simp [State.emit, admission_events]

theorem entry_insert_same {β : Type} (table : Option (Nat → Option β)) (ts : Nat) (v : β)
    (h : table.isSome) : entry (g_hash_table_insert table ts v) ts = some v := by
  cases table with
  | none => cases h
  | some t => simp [entry, g_hash_table_insert]

theorem entry_insert_other {β : Type} (table : Option (Nat → Option β)) (ts s : Nat) (v : β)
    (h : s ≠ ts) : entry (g_hash_table_insert table ts v) s = entry table s := by
  cases table with
  | none => rfl
  | some t => simp [entry, g_hash_table_insert, h]

theorem insert_isSome {β : Type} (table : Option (Nat → Option β)) (ts : Nat) (v : β) :
    (g_hash_table_insert table ts v).isSome = table.isSome := by
  cases table <;> rfl

/-- The target map after a returned `as_system_add`. -/
theorem as_system_add_target {ts ta : Nat} {m : Option Mavlink_Messages_t}
    {p : Option Mavlink_Parameter_t} {sock chan : Option Nat} {st st' : State}
    (h : as_system_add ts ta m p sock chan st = .ret () st') :
    ∃ tgt, registered_target sock chan = some tgt ∧
      st'.target_hash_table = g_hash_table_insert st.target_hash_table ts tgt := by
  obtain ⟨-, hvalid, hchan, hsock, -⟩ := as_system_add_ret h
  cases chan with
  | some c => exact ⟨_, rfl, hchan c rfl⟩
  | none =>
    cases sock with
    | some k => exact ⟨_, rfl, hsock k rfl rfl⟩
    | none => simp at hvalid

theorem setpoint_of_entry (st : State) (s : Nat) (h : st.sys_key s = some s) :
    setpoint st s = entry st.manual_control_table s := by
  unfold setpoint lookup_setpoint g_hash_table_lookup entry
  rw [h]
  cases st.manual_control_table <;> rfl

theorem Ready_as_system_add {ts ta : Nat} {m : Option Mavlink_Messages_t}
    {p : Option Mavlink_Parameter_t} {sock chan : Option Nat} {st st' : State}
    (hready : st.Ready) (h : as_system_add ts ta m p sock chan st = .ret () st') :
    st'.Ready := by
  obtain ⟨⟨msgs, params, -, -, hm, hp⟩, -, -, -, hmc, -⟩ := as_system_add_ret h
  obtain ⟨tgt, -, ht⟩ := as_system_add_target h
  obtain ⟨r1, r2, r3, r4⟩ := hready
  refine ⟨?_, ?_, ?_, ?_⟩
  · rw [hm, insert_isSome]; exact r1
  · rw [hp, insert_isSome]; exact r2
  · rw [hmc, insert_isSome]; exact r3
  · rw [ht, insert_isSome]; exact r4

theorem Agree_as_system_add {ts ta : Nat} {m : Option Mavlink_Messages_t}
    {p : Option Mavlink_Parameter_t} {sock chan : Option Nat} {st st' : State}
    (hready : st.Ready) (hagree : st.Agree)
    (h : as_system_add ts ta m p sock chan st = .ret () st') : st'.Agree := by
  obtain ⟨⟨msgs, params, -, -, hm, hp⟩, -, -, -, hmc, hkey, -⟩ := as_system_add_ret h
  obtain ⟨tgt, -, ht⟩ := as_system_add_target h
  obtain ⟨r1, r2, r3, r4⟩ := hready
  intro s
  by_cases hs : s = ts
  · subst hs
    rw [hm, hp, hmc, ht, hkey, entry_insert_same _ _ _ r1, entry_insert_same _ _ _ r2,
      entry_insert_same _ _ _ r3, entry_insert_same _ _ _ r4]
    simp
  · rw [hm, hp, hmc, ht, hkey, entry_insert_other _ _ _ _ hs, entry_insert_other _ _ _ _ hs,
      entry_insert_other _ _ _ _ hs, entry_insert_other _ _ _ _ hs, setAt_other _ _ _ _ hs]
    exact hagree s

/-- In every state reachable by admissions the maps exist and invariant I1 holds. -/
theorem admission_reachable_agree (cfg : Config) {st : State}
    (h : AdmissionReachable cfg st) : st.Ready ∧ st.Agree := by
  induction h with
  | @init st p h =>
    unfold as_api_init at h
    simp only [State.start] at h
    injection h with _ h2
    subst h2
    refine ⟨⟨rfl, rfl, rfl, rfl⟩, ?_⟩
    intro s
    simp [State.emit, entry, g_hash_table_new]
  | @add st st' ts ta m p sock chan _ hstep ih =>
    exact ⟨Ready_as_system_add ih.1 hstep, Agree_as_system_add ih.1 ih.2 hstep⟩

/-! ## C1 -/

/-- C1 (the code misses the claim by one): on the freshly created, empty queues
of a system every sequence of pushes returns, and the length after `n` pushes is
`min n (cap + 1)` for each of the three queues; so the length is `cap + 1`, above
the cap, after `cap + 1` pushes, and after `MAX_STATUSTEX + 5` pushes the
statustext queue holds `MAX_STATUSTEX + 1` elements, not `MAX_STATUSTEX`. -/
theorem queue_length_reaches_cap_plus_one (cfg : Config) (ts : Nat) (st : State)
    (msgs : List Mavlink_Messages_t) (m : Mavlink_Messages_t) :
    (∃ st' q, statustex_pushes cfg ts msgs (st.withFreshQueues ts) = .ret () st' ∧
        st'.statustex_queue ts = some q ∧
        q.length = min msgs.length (cfg.MAX_STATUSTEX + 1)) ∧
    (∃ st' q, named_val_float_pushes cfg ts msgs (st.withFreshQueues ts) = .ret () st' ∧
        st'.named_val_float_queue ts = some q ∧
        q.length = min msgs.length (cfg.MAX_NAMED_VALUE_FLOAT + 1)) ∧
    (∃ st' q, message_pushes cfg ts msgs (st.withFreshQueues ts) = .ret () st' ∧
        st'.message_queue ts = some q ∧
        q.length = min msgs.length (cfg.MAX_MESSAGE + 1)) ∧
    (∃ st' q, statustex_pushes cfg ts (List.replicate (cfg.MAX_STATUSTEX + 5) m)
          (st.withFreshQueues ts) = .ret () st' ∧
        st'.statustex_queue ts = some q ∧
        q.length = cfg.MAX_STATUSTEX + 1 ∧ ¬ q.length ≤ cfg.MAX_STATUSTEX) := by
  refine ⟨?_, ?_, ?_, ?_⟩
  · obtain ⟨st', q, h, hq, hl⟩ := statustex_pushes_length cfg ts msgs
      (st.withFreshQueues ts) [] (by simp [State.withFreshQueues]) rfl (by simp)
    exact ⟨st', q, h, hq, by simpa using hl⟩
  · obtain ⟨st', q, h, hq, hl⟩ := named_val_float_pushes_length cfg ts msgs
      (st.withFreshQueues ts) [] (by simp [State.withFreshQueues]) rfl (by simp)
    exact ⟨st', q, h, hq, by simpa using hl⟩
  · obtain ⟨st', q, h, hq, hl⟩ := message_pushes_length cfg ts msgs
      (st.withFreshQueues ts) [] (by simp [State.withFreshQueues]) rfl (by simp)
    exact ⟨st', q, h, hq, by simpa using hl⟩
  · obtain ⟨st', q, h, hq, hl⟩ := statustex_pushes_length cfg ts
      (List.replicate (cfg.MAX_STATUSTEX + 5) m)
      (st.withFreshQueues ts) [] (by simp [State.withFreshQueues]) rfl (by simp)
    have hl' : q.length = cfg.MAX_STATUSTEX + 1 := by
      simp only [List.length_nil, List.length_replicate] at hl
      omega
    exact ⟨st', q, h, hq, hl', by omega⟩

/-! ## C2 -/

/-- C2 fails as stated: system 1 is admitted and its status is Initiating (the
harvest has not completed); `as_api_vehicle_arm(1, 1)` returns and leaves the
status Armed, although Initiating → Armed is not a permitted edge. Likewise
right after `as_system_add`, which leaves the status Uninitialized, arm takes it
to Armed. -/
theorem arm_takes_initiating_to_armed :
    State.initiating1.vehicle_status 1 = VehicleStatus.SYS_INITIATING ∧
    ((Op.as_api_vehicle_arm 1 1).exec Config.sample State.initiating1).returns = true ∧
    ((Op.as_api_vehicle_arm 1 1).exec Config.sample State.initiating1).state.vehicle_status 1
      = VehicleStatus.SYS_ARMED ∧
    VehicleStatus.SYS_INITIATING ≠ VehicleStatus.SYS_ARMED ∧
    permitted_edge VehicleStatus.SYS_INITIATING VehicleStatus.SYS_ARMED = false ∧
    State.admitted1.vehicle_status 1 = VehicleStatus.SYS_UN_INIT ∧
    ((Op.as_api_vehicle_arm 1 1).exec Config.sample State.admitted1).state.vehicle_status 1
      = VehicleStatus.SYS_ARMED ∧
    permitted_edge VehicleStatus.SYS_UN_INIT VehicleStatus.SYS_ARMED = false := by
  refine ⟨rfl, rfl, rfl, by decide, rfl, rfl, rfl, rfl⟩

/-- C2 (amended): whatever the value before, `vehicle_status[s]` after a call is
unchanged, or the call is `as_api_vehicle_arm(s, _)` and it is Armed, or the call
is `as_api_vehicle_disarm(s, _)` and it is Disarmed; no call of the file writes
Initiating, and no call looks at the old value before writing. -/
theorem vehicle_status_after_call (cfg : Config) (op : Op) (st : State) (s : Nat) :
    (op.exec cfg st).state.vehicle_status s = st.vehicle_status s ∨
    ((∃ a, op = .as_api_vehicle_arm s a) ∧
      (op.exec cfg st).state.vehicle_status s = VehicleStatus.SYS_ARMED) ∨
    ((∃ a, op = .as_api_vehicle_disarm s a) ∧
      (op.exec cfg st).state.vehicle_status s = VehicleStatus.SYS_DISARMED) := by
  by_cases ht : op.touchesSessions = false
  · left; rw [(exec_same_sessions cfg op st ht).vehicle_status]
  · cases op with
    | as_api_init p => left; simp only [Op.exec]; rw [as_api_init_status_same]
    | as_system_add ts ta m p sock chan =>
      left; simp only [Op.exec]; rw [as_system_add_status_same]
    | as_api_manual_control x y z r b va =>
      left; simp only [Op.exec]; rw [as_api_manual_control_status_same]
    | as_api_vehicle_arm ts ta =>
      simp only [Op.exec, as_api_vehicle_arm_eq]
      by_cases hs : s = ts
      · subst hs
        cases g_hash_table_lookup st.manual_control_table (st.sys_key s) with
        | error why => left; simp [Outcome.state]
        | ok v =>
          cases v with
          | none => left; simp [Outcome.state]
          | some mc =>
            right; left
            exact ⟨⟨ta, rfl⟩, by simp [Outcome.state, send_mavlink_message]⟩
      · left
        cases g_hash_table_lookup st.manual_control_table (st.sys_key ts) with
        | error why => simp [Outcome.state]
        | ok v => cases v <;> simp [Outcome.state, send_mavlink_message, hs]
    | as_api_vehicle_disarm ts ta =>
      simp only [Op.exec, as_api_vehicle_disarm_eq]
      by_cases hs : s = ts
      · subst hs
        right; right
        refine ⟨⟨ta, rfl⟩, ?_⟩
        cases g_hash_table_lookup st.manual_control_table (st.sys_key s) with
        | error why => simp [Outcome.state]
        | ok v => cases v <;> simp [Outcome.state]
      · left
        cases g_hash_table_lookup st.manual_control_table (st.sys_key ts) with
        | error why => simp [Outcome.state, hs]
        | ok v => cases v <;> simp [Outcome.state, hs]
    | _ => simp [Op.touchesSessions] at ht

/-! ## C3 -/

/-- C3: for a system `s` that has a session (a setpoint `mc`, whatever its value
and whatever the status), `as_api_vehicle_arm(s, a)` returns, leaves the setpoint
`x = 0, y = 0, z = 500, r = 0, buttons = 0` and the status Armed, and adds to the
trace exactly one transmission, the COMMAND_LONG with COMPONENT_ARM_DISARM and
`param1 = 1` to `s` (after the "no vehicle" line when the check fails);
`as_api_vehicle_disarm(s, a)` does the same with Disarmed and `param1 = 0`; and
arm followed by disarm ends Disarmed with the neutral setpoint. -/
theorem arm_disarm_on_session (cfg : Config) (s a : Nat) (st : State)
    (mc : mavlink_manual_control_t) (h : setpoint st s = some mc) :
    (∃ st', as_api_vehicle_arm cfg s a st = .ret () st' ∧
      setpoint st' s =
        some { x := 0, y := 0, z := 500, r := 0, buttons := 0, target := mc.target } ∧
      st'.vehicle_status s = VehicleStatus.SYS_ARMED ∧
      st'.trace = st.trace ++
        (if check_value st s = 0 then [Event.g_message s "as_api_vehicle_arm"] else []) ++
        [Event.send_mavlink_message s (arm_disarm_message cfg s a 1)]) ∧
    (∃ st', as_api_vehicle_disarm cfg s a st = .ret () st' ∧
      setpoint st' s =
        some { x := 0, y := 0, z := 500, r := 0, buttons := 0, target := mc.target } ∧
      st'.vehicle_status s = VehicleStatus.SYS_DISARMED ∧
      st'.trace = st.trace ++
        (if check_value st s = 0 then [Event.g_message s "as_api_vehicle_disarm"] else []) ++
        [Event.send_mavlink_message s (arm_disarm_message cfg s a 0)]) ∧
    (∃ st1 st2, as_api_vehicle_arm cfg s a st = .ret () st1 ∧
      as_api_vehicle_disarm cfg s a st1 = .ret () st2 ∧
      st2.vehicle_status s = VehicleStatus.SYS_DISARMED ∧
      setpoint st2 s =
        some { x := 0, y := 0, z := 500, r := 0, buttons := 0, target := mc.target }) := by
  obtain ⟨st1, h1, hsp1, hvs1, htr1⟩ := as_api_vehicle_arm_admitted cfg s a st mc h
  obtain ⟨st1', h1', hsp1', hvs1', htr1'⟩ := as_api_vehicle_disarm_admitted cfg s a st mc h
  obtain ⟨st2, h2, hsp2, hvs2, -⟩ :=
    as_api_vehicle_disarm_admitted cfg s a st1 (clear_manual_control mc) hsp1
  exact ⟨⟨st1, h1, hsp1, hvs1, htr1⟩, ⟨st1', h1', hsp1', hvs1', htr1'⟩,
    ⟨st1, st2, h1, h2, hvs2, hsp2⟩⟩

/-- Witness for C3: system 2 of the state in which systems 1 and 2 are admitted
and 2 is armed, with its setpoint as admitted. -/
theorem arm_disarm_on_session_witness :
    setpoint State.armed2 2 = some initial_manual_control ∧
    (∃ st1 st2, as_api_vehicle_arm Config.sample 2 1 State.armed2 = .ret () st1 ∧
      as_api_vehicle_disarm Config.sample 2 1 st1 = .ret () st2 ∧
      st2.vehicle_status 2 = VehicleStatus.SYS_DISARMED ∧
      setpoint st2 2 =
        some { x := 0, y := 0, z := 500, r := 0, buttons := 0, target := 0 }) :=
  ⟨rfl, (arm_disarm_on_session Config.sample 2 1 State.armed2 initial_manual_control rfl).2.2⟩

/-! ## C4 -/

/-- C4: with more than one admitted system (`sys_count > 1`) and a well-formed
registry (as in every reachable state), `as_api_manual_control(x, y, z, r,
buttons, s)` returns; if `vehicle_status[s]` is Armed the setpoint of `s` becomes
exactly `x, y, z, r, buttons`, otherwise it is unchanged; the setpoint of every
other system and every status are unchanged. -/
theorem manual_control_addresses_only_target (x y z r : Int) (buttons : Nat) (s : Nat)
    (st : State) (hs : s < 256) (hcount : st.sys_count > 1) (hwf : st.WF) :
    ∃ st', as_api_manual_control x y z r buttons (s : Int) st = .ret () st' ∧
      (st.vehicle_status s = VehicleStatus.SYS_ARMED →
        ∃ mc, setpoint st s = some mc ∧
          setpoint st' s =
            some { x := x, y := y, z := z, r := r, buttons := buttons, target := mc.target }) ∧
      (st.vehicle_status s ≠ VehicleStatus.SYS_ARMED → setpoint st' s = setpoint st s) ∧
      (∀ s', s' ≠ s → setpoint st' s' = setpoint st s') ∧
      st'.vehicle_status = st.vehicle_status := by
  have hid : manual_control_sys_id st (s : Int) = s := by
    unfold manual_control_sys_id
    rw [if_pos hcount]
    omega
  rw [as_api_manual_control_eq, hid]
  by_cases harmed : st.vehicle_status s = VehicleStatus.SYS_ARMED
  · obtain ⟨mc, hmc⟩ := hwf.armed_has_setpoint s harmed
    rw [if_neg (by simpa using harmed), lookup_eq_of_setpoint hmc]
    refine ⟨_, rfl, ?_, ?_, ?_, ?_⟩
    · intro _
      exact ⟨mc, hmc, by simp [setpoint_eq, lookup_setpoint_poke, hmc]⟩
    · intro hne; exact absurd harmed hne
    · intro s' hne
      simp only [setpoint_eq, logged_sys_key, lookup_setpoint_poke]
      split
      · rename_i hk
        cases hk' : st.sys_key s' with
        | none => simp [lookup_setpoint, g_hash_table_lookup]; cases st.manual_control_table <;> rfl
        | some k =>
          have h1 : k = s' := hwf.key_self s' k hk'
          have h2 : k = s := hwf.key_self s k (by rw [← hk, hk'])
          exact absurd (h1.symm.trans h2) hne
      · rfl
    · simp
  · rw [if_pos harmed]
    refine ⟨_, rfl, ?_, ?_, ?_, ?_⟩
    · intro h; exact absurd h harmed
    · intro _; simp [setpoint_eq]
    · intro s' _; simp [setpoint_eq]
    · simp

/-- Witness for C4: systems 1 and 2 admitted, 2 armed; the call of scenario S2
addressed to system 2. -/
theorem manual_control_addresses_only_target_witness :
    State.armed2.sys_count > 1 ∧
    State.armed2.vehicle_status 2 = VehicleStatus.SYS_ARMED ∧
    ∃ st', as_api_manual_control 500 (-500) 100 0 1 2 State.armed2 = .ret () st' ∧
      (∃ mc, setpoint State.armed2 2 = some mc ∧ setpoint st' 2 =
        some { x := 500, y := -500, z := 100, r := 0, buttons := 1, target := mc.target }) ∧
      (∀ s', s' ≠ 2 → setpoint st' s' = setpoint State.armed2 s') ∧
      st'.vehicle_status = State.armed2.vehicle_status := by
  have hc : State.armed2.sys_count > 1 := by decide
  obtain ⟨st', h, h1, -, h3, h4⟩ :=
    manual_control_addresses_only_target 500 (-500) 100 0 1 2 State.armed2 (by decide) hc
      (reachable_WF Config.sample reachable_armed2)
  exact ⟨hc, rfl, st', h, h1 rfl, h3, h4⟩

/-! ## C5 -/

/-- C5: `as_api_check_vehicle(s)` returns without changing the state; the value
is 0 exactly when `sys_key[s]` is unset or the status is Uninitialized or
Initiating, and it is non-zero (it is 1) for a published `sys_key[s]` with status
Disarmed or Armed. -/
theorem as_api_check_vehicle_spec (s : Nat) (st : State) :
    ∃ v, as_api_check_vehicle s st = .ret v st ∧
      (v = 0 ↔ (st.sys_key s = none ∨
        st.vehicle_status s = VehicleStatus.SYS_UN_INIT ∨
        st.vehicle_status s = VehicleStatus.SYS_INITIATING)) ∧
      (st.sys_key s ≠ none →
        (st.vehicle_status s = VehicleStatus.SYS_DISARMED ∨
          st.vehicle_status s = VehicleStatus.SYS_ARMED) → v ≠ 0 ∧ v = 1) := by
  unfold as_api_check_vehicle
  split
  · rename_i h
    refine ⟨0, rfl, by simp [h], ?_⟩
    intro hk hv
    rcases h with h | h | h
    · exact absurd h hk
    · rcases hv with hv | hv <;> rw [hv] at h <;> cases h
    · rcases hv with hv | hv <;> rw [hv] at h <;> cases h
  · rename_i h
    exact ⟨1, rfl, by simp [h], fun _ _ => ⟨by decide, rfl⟩⟩

/-- Witness for C5: the armed system 2 is ready, the admitted but uninitialised
system 1 and the unknown system 3 are not. -/
theorem as_api_check_vehicle_spec_witness :
    (∃ v, as_api_check_vehicle 2 State.armed2 = .ret v State.armed2 ∧ v ≠ 0 ∧ v = 1) ∧
    as_api_check_vehicle 1 State.armed2 = .ret 0 State.armed2 ∧
    as_api_check_vehicle 3 State.armed2 = .ret 0 State.armed2 := by
  obtain ⟨v, h, -, h2⟩ := as_api_check_vehicle_spec 2 State.armed2
  exact ⟨⟨v, h, h2 (by decide) (Or.inr rfl)⟩, rfl, rfl⟩

/-! ## C6 -/

/-- C6: once the four maps exist, `as_system_add(s, ...)` with a message set, a
parameter map and at least one transport returns and leaves a complete session
for `s`: the four maps hold the supplied message set, parameter map and
transport (the serial channel when given, else the socket) and the setpoint
`0, 0, 500, 0, 0`; `sys_key[s]` is published; the three queues of `s` exist and
are empty. The entries, `sys_key` and queues of every other system are
unchanged, so agreement of `sys_key` with the four maps is preserved, and it
holds in every state reachable by admissions. -/
theorem as_system_add_establishes_session (cfg : Config) (s a : Nat)
    (msgs : Mavlink_Messages_t) (params : Mavlink_Parameter_t) (sock chan : Option Nat)
    (st : State) (hvalid : sock ≠ none ∨ chan ≠ none) (hready : st.Ready) :
    ∃ st', as_system_add s a (some msgs) (some params) sock chan st = .ret () st' ∧
      entry st'.message_hash_table s = some msgs ∧
      entry st'.parameter_hash_table s = some params ∧
      (∀ c, chan = some c → entry st'.target_hash_table s = some (Target.serial_chan c)) ∧
      (∀ k, chan = none → sock = some k →
        entry st'.target_hash_table s = some (Target.socket k)) ∧
      entry st'.manual_control_table s =
        some { x := 0, y := 0, z := 500, r := 0, buttons := 0, target := 0 } ∧
      setpoint st' s =
        some { x := 0, y := 0, z := 500, r := 0, buttons := 0, target := 0 } ∧
      st'.sys_key s = some s ∧
      st'.statustex_queue s = some [] ∧
      st'.named_val_float_queue s = some [] ∧
      st'.message_queue s = some [] ∧
      (∀ s', s' ≠ s →
        entry st'.message_hash_table s' = entry st.message_hash_table s' ∧
        entry st'.parameter_hash_table s' = entry st.parameter_hash_table s' ∧
        entry st'.target_hash_table s' = entry st.target_hash_table s' ∧
        entry st'.manual_control_table s' = entry st.manual_control_table s' ∧
        st'.sys_key s' = st.sys_key s' ∧
        st'.statustex_queue s' = st.statustex_queue s' ∧
        st'.named_val_float_queue s' = st.named_val_float_queue s' ∧
        st'.message_queue s' = st.message_queue s') ∧
      (st.Agree → st'.Agree) ∧
      (AdmissionReachable cfg st →
        st.Agree ∧ st'.Agree ∧ AdmissionReachable cfg st') := by
  obtain ⟨st', h⟩ := as_system_add_returns s a msgs params sock chan st hvalid
  obtain ⟨⟨msgs', params', hm', hp', hm, hp⟩, -, -, -, hmc, hkey, hq1, hq2, hq3, -⟩ :=
    as_system_add_ret h
  cases hm'
  cases hp'
  obtain ⟨tgt, htgt, ht⟩ := as_system_add_target h
  obtain ⟨r1, r2, r3, r4⟩ := hready
  have hks : st'.sys_key s = some s := by rw [hkey]; simp
  have hentry : entry st'.manual_control_table s = some initial_manual_control := by
    rw [hmc, entry_insert_same _ _ _ r3]
  refine ⟨st', h, ?_, ?_, ?_, ?_, hentry, ?_, hks, ?_, ?_, ?_, ?_, ?_, ?_⟩
  · rw [hm, entry_insert_same _ _ _ r1]
  · rw [hp, entry_insert_same _ _ _ r2]
  · intro c hc
    subst hc
    rw [ht, entry_insert_same _ _ _ r4]
    simp [registered_target] at htgt
    rw [htgt]
  · intro k hc hk
    subst hc; subst hk
    rw [ht, entry_insert_same _ _ _ r4]
    simp [registered_target] at htgt
    rw [htgt]
  · rw [setpoint_of_entry st' s hks, hentry]; rfl
  · rw [hq1]; simp
  · rw [hq2]; simp
  · rw [hq3]; simp
  · intro s' hs'
    rw [hm, hp, ht, hmc, hkey, hq1, hq2, hq3]
    refine ⟨entry_insert_other _ _ _ _ hs', entry_insert_other _ _ _ _ hs',
      entry_insert_other _ _ _ _ hs', entry_insert_other _ _ _ _ hs', ?_, ?_, ?_, ?_⟩ <;>
      simp [hs']
  · intro hagree
    exact Agree_as_system_add ⟨r1, r2, r3, r4⟩ hagree h
  · intro hreach
    have h0 := admission_reachable_agree cfg hreach
    exact ⟨h0.2, Agree_as_system_add h0.1 h0.2 h,
      AdmissionReachable.add s a (some msgs) (some params) sock chan hreach h⟩

/-- Witness for C6: admission of system 1 over UDP right after `as_api_init`. -/
theorem as_system_add_establishes_session_witness :
    State.initialised.Ready ∧ State.initialised.sys_key 1 = none ∧
    ∃ st', as_system_add 1 1 (some (Mavlink_Messages_t.sample 10)) (some { handle := 11 })
        (some 12) none State.initialised = .ret () st' ∧
      entry st'.message_hash_table 1 = some (Mavlink_Messages_t.sample 10) ∧
      entry st'.target_hash_table 1 = some (Target.socket 12) ∧
      st'.sys_key 1 = some 1 ∧ st'.statustex_queue 1 = some [] ∧ st'.Agree := by
  have hready : State.initialised.Ready := ⟨rfl, rfl, rfl, rfl⟩
  obtain ⟨st', h, h1, -, -, h4, -, -, h7, h8, -, -, -, -, h13⟩ :=
    as_system_add_establishes_session Config.sample 1 1 (Mavlink_Messages_t.sample 10)
      { handle := 11 } (some 12) none State.initialised (by simp) hready
  exact ⟨hready, rfl, st', h, h1, h4 12 rfl rfl, h7, h8,
    (h13 (AdmissionReachable.init none rfl)).2.1⟩

/-! ## C7 -/

/-- C7 fails as stated: system 1 has a session (status Disarmed, message set 10,
one queued statustext, `sys_count = 1`); a second `as_system_add(1, ...)`
returns normally, and afterwards `sys_count` is 2, the message map holds the new
message set 30, the statustext queue is a new empty one, and six more workers
have been spawned. -/
theorem duplicate_admission_completes :
    State.disarmed1.sys_key 1 = some 1 ∧
    State.disarmed1.vehicle_status 1 = VehicleStatus.SYS_DISARMED ∧
    entry State.disarmed1.message_hash_table 1 = some (Mavlink_Messages_t.sample 10) ∧
    State.disarmed1.statustex_queue 1 = some [(Mavlink_Messages_t.sample 40).statustext] ∧
    State.disarmed1.sys_count = 1 ∧
    duplicate_admission.returns = true ∧
    duplicate_admission.state.sys_count = 2 ∧
    entry duplicate_admission.state.message_hash_table 1
      = some (Mavlink_Messages_t.sample 30) ∧
    duplicate_admission.state.statustex_queue 1 = some [] ∧
    duplicate_admission.state.trace.length = State.disarmed1.trace.length + 7 := by
  refine ⟨rfl, rfl, rfl, rfl, rfl, rfl, rfl, rfl, rfl, rfl⟩

/-- C7 (amended): `as_system_add` for a system that already has a session (a
published `sys_key[s]`) completes like a first admission: it returns,
`sys_count` is incremented, the entries of `s` in the four maps are replaced by
the new message set, parameter map, transport (the serial channel when given,
else the socket) and the initial setpoint, the three queues are replaced by new
empty ones and the snapshot by a zeroed one, and another set of workers is
spawned. -/
theorem as_system_add_replaces_session (s a : Nat) (msgs : Mavlink_Messages_t)
    (params : Mavlink_Parameter_t) (sock chan : Option Nat) (st : State)
    (hvalid : sock ≠ none ∨ chan ≠ none) (hready : st.Ready)
    (hsession : st.sys_key s = some s) :
    ∃ st', as_system_add s a (some msgs) (some params) sock chan st = .ret () st' ∧
      st'.sys_count = wrap32 (st.sys_count + 1) ∧
      (0 ≤ st.sys_count → st.sys_count < 2147483647 → st'.sys_count = st.sys_count + 1) ∧
      entry st'.message_hash_table s = some msgs ∧
      entry st'.parameter_hash_table s = some params ∧
      (∀ c, chan = some c → entry st'.target_hash_table s = some (Target.serial_chan c)) ∧
      (∀ k, chan = none → sock = some k →
        entry st'.target_hash_table s = some (Target.socket k)) ∧
      entry st'.manual_control_table s = some initial_manual_control ∧
      setpoint st' s = some initial_manual_control ∧
      st'.sys_key s = st.sys_key s ∧
      st'.statustex_queue s = some [] ∧
      st'.named_val_float_queue s = some [] ∧
      st'.message_queue s = some [] ∧
      st'.vehicle_data_array s = some { content := 0 } ∧
      st'.vehicle_status = st.vehicle_status ∧
      st'.trace = st.trace ++ admission_events s a sock chan := by
  obtain ⟨st', h⟩ := as_system_add_returns s a msgs params sock chan st hvalid
  obtain ⟨⟨msgs', params', hm', hp', hm, hp⟩, -, -, -, hmc, hkey, hq1, hq2, hq3, hvd, hcnt,
    hvs, -⟩ := as_system_add_ret h
  cases hm'
  cases hp'
  obtain ⟨tgt, htgt, ht⟩ := as_system_add_target h
  obtain ⟨r1, r2, r3, r4⟩ := hready
  have hks : st'.sys_key s = some s := by rw [hkey]; simp
  refine ⟨st', h, hcnt, ?_, ?_, ?_, ?_, ?_, ?_, ?_, by rw [hks, hsession], ?_, ?_, ?_, ?_,
    hvs, as_system_add_trace h⟩
  · intro h0 h1
    rw [hcnt]
    unfold wrap32
    omega
  · rw [hm, entry_insert_same _ _ _ r1]
  · rw [hp, entry_insert_same _ _ _ r2]
  · intro c hc
    subst hc
    rw [ht, entry_insert_same _ _ _ r4]
    simp [registered_target] at htgt
    rw [htgt]
  · intro k hc hk
    subst hc; subst hk
    rw [ht, entry_insert_same _ _ _ r4]
    simp [registered_target] at htgt
    rw [htgt]
  · rw [hmc, entry_insert_same _ _ _ r3]
  · rw [setpoint_of_entry st' s hks, hmc, entry_insert_same _ _ _ r3]
  · rw [hq1]; simp
  · rw [hq2]; simp
  · rw [hq3]; simp
  · rw [hvd]; simp

/-- Witness for C7 (amended): the second admission of system 1, over another
socket. -/
theorem as_system_add_replaces_session_witness :
    State.disarmed1.Ready ∧ State.disarmed1.sys_key 1 = some 1 ∧
    entry State.disarmed1.target_hash_table 1 = some (Target.socket 12) ∧
    ∃ st', as_system_add 1 1 (some (Mavlink_Messages_t.sample 30)) (some { handle := 31 })
        (some 32) none State.disarmed1 = .ret () st' ∧
      st'.sys_count = State.disarmed1.sys_count + 1 ∧
      entry st'.target_hash_table 1 = some (Target.socket 32) ∧
      st'.statustex_queue 1 = some [] := by
  have hready : State.disarmed1.Ready := ⟨rfl, rfl, rfl, rfl⟩
  obtain ⟨st', h, -, h2, -, -, -, htgt, -, -, -, h7, -⟩ :=
    as_system_add_replaces_session 1 1 (Mavlink_Messages_t.sample 30) { handle := 31 }
      (some 32) none State.disarmed1 (by simp) hready rfl
  exact ⟨hready, rfl, rfl, st', h, h2 (by decide) (by decide), htgt 32 rfl rfl, h7⟩

/-! ## C8 -/

/-- C8: when `as_api_check_vehicle(s)` gives 0, `as_api_statustex_queue_pop(s)`
returns NULL and `as_api_statustex_count(s)` returns 0, and the only change of
state is the logged "no vehicle" line, so the statustext queue of `s` keeps its
contents; when the check gives a non-zero value and the queue of `s` is `q`,
`as_api_statustex_count(s)` returns the length of `q` and changes nothing. -/
theorem statustex_read_api (s : Nat) (st : State) :
    (as_api_check_vehicle s st = .ret 0 st →
      as_api_statustex_queue_pop s st =
        .ret none (st.emit (.g_message s "as_api_statustex_queue_pop")) ∧
      as_api_statustex_count s st =
        .ret 0 (st.emit (.g_message s "as_api_statustex_count")) ∧
      (as_api_statustex_queue_pop s st).state.statustex_queue s = st.statustex_queue s ∧
      (as_api_statustex_count s st).state.statustex_queue s = st.statustex_queue s) ∧
    (∀ v q, as_api_check_vehicle s st = .ret v st → v ≠ 0 →
      st.statustex_queue s = some q →
      as_api_statustex_count s st = .ret (q.length : Int) st) := by
  constructor
  · intro h
    have hpop : as_api_statustex_queue_pop s st =
        .ret none (st.emit (.g_message s "as_api_statustex_queue_pop")) := by
      unfold as_api_statustex_queue_pop; rw [h]; rfl
    have hcount : as_api_statustex_count s st =
        .ret 0 (st.emit (.g_message s "as_api_statustex_count")) := by
      unfold as_api_statustex_count; rw [h]; rfl
    refine ⟨hpop, hcount, ?_, ?_⟩
    · rw [hpop]; rfl
    · rw [hcount]; rfl
  · intro v q h hv hq
    unfold as_api_statustex_count
    rw [h]
    simp only [hv, if_false, hq, g_async_queue_length]

/-- Witness for C8: system 1 is admitted but not ready and has one queued
statustext, which the read API leaves in place; system 2 is armed with two
queued statustexts, which are counted. -/
theorem statustex_read_api_witness :
    as_api_check_vehicle 1 State.pushed1 = .ret 0 State.pushed1 ∧
    (State.pushed1.statustex_queue 1).map List.length = some 1 ∧
    (as_api_statustex_queue_pop 1 State.pushed1).val? = some none ∧
    ((as_api_statustex_queue_pop 1 State.pushed1).state.statustex_queue 1).map List.length
      = some 1 ∧
    as_api_statustex_count 2 State.armed2_pushed = .ret 2 State.armed2_pushed := by
  have h1 := (statustex_read_api 1 State.pushed1).1 rfl
  have h2 := (statustex_read_api 2 State.armed2_pushed).2 1 _ rfl (by decide) rfl
  refine ⟨rfl, rfl, ?_, ?_, h2⟩
  · rw [h1.1]; rfl
  · rw [h1.2.2.1]; rfl

/-! ## C9 -/

/-- The failing input of C9 evaluated: right after `as_api_init` no system is
admitted; `as_api_vehicle_arm(1, 1)` logs the "no vehicle" line and then faults
in the setpoint lookup under the NULL `sys_key[1]`, before anything is
transmitted; `as_api_vehicle_disarm(1, 1)` faults at the same lookup, after its
transmission. -/
theorem arm_without_session_halts :
    State.initialised.sys_key 1 = none ∧
    (as_api_vehicle_arm Config.sample 1 1 State.initialised).returns = false ∧
    as_api_vehicle_arm Config.sample 1 1 State.initialised =
      .halt .fault (State.initialised.emit (.g_message 1 "as_api_vehicle_arm")) ∧
    (as_api_vehicle_arm Config.sample 1 1 State.initialised).state.trace =
      State.initialised.trace ++ [Event.g_message 1 "as_api_vehicle_arm"] ∧
    (as_api_vehicle_disarm Config.sample 1 1 State.initialised).returns = false ∧
    as_api_vehicle_disarm Config.sample 1 1 State.initialised =
      .halt .fault (as_api_vehicle_disarm Config.sample 1 1 State.initialised).state := by
  refine ⟨rfl, rfl, rfl, rfl, rfl, rfl⟩

/-- C9 (the code misses the claim): for a system `s` without session
(`sys_key[s]` unset) neither call returns, where the claim has both return
normally after transmitting. Each call sees that there is no vehicle, only logs
it and goes on to look the setpoint up under the NULL key: with the tables
created this is a NULL dereference inside the lookup, without them the lookup
gives NULL and `g_assert(NULL != p_manual_control)` fails.
`as_api_vehicle_arm(s, a)` stops having only logged the "no vehicle" line:
nothing is transmitted. `as_api_vehicle_disarm(s, a)` stops after it has logged,
transmitted its COMMAND_LONG (COMPONENT_ARM_DISARM, `param1 = 0`) to `s` and set
`vehicle_status[s]` to Disarmed. -/
theorem arm_disarm_without_session (cfg : Config) (s a : Nat) (st : State)
    (h : st.sys_key s = none) :
    as_api_vehicle_arm cfg s a st =
      .halt (if st.manual_control_table.isSome then Halt.fault else Halt.assert_fail)
        (st.emit (.g_message s "as_api_vehicle_arm")) ∧
    (∃ st', as_api_vehicle_disarm cfg s a st =
        .halt (if st.manual_control_table.isSome then Halt.fault else Halt.assert_fail) st' ∧
      st'.trace = st.trace ++ [Event.g_message s "as_api_vehicle_disarm",
        Event.send_mavlink_message s (arm_disarm_message cfg s a 0)] ∧
      st'.vehicle_status s = VehicleStatus.SYS_DISARMED) := by
  have hc : check_value st s = 0 := by simp [check_value, h]
  have hl : ∀ f, logged st s f = st.emit (.g_message s f) := by
    intro f; simp [logged, hc]
  constructor
  · rw [as_api_vehicle_arm_eq, h, hl]
    cases st.manual_control_table with
    | none => rfl
    | some t => rfl
  · rw [as_api_vehicle_disarm_eq, h, hl]
    cases st.manual_control_table with
    | none =>
      exact ⟨_, rfl,
        by simp [send_mavlink_message, State.emit, arm_disarm_message, encode, arm_disarm_cmd],
        by simp⟩
    | some t =>
      exact ⟨_, rfl,
        by simp [send_mavlink_message, State.emit, arm_disarm_message, encode, arm_disarm_cmd],
        by simp⟩

/-- Witness for C9: system 1 right after `as_api_init`, where the tables exist
and the stop is the fault in the lookup. -/
theorem arm_disarm_without_session_witness :
    State.initialised.sys_key 1 = none ∧
    as_api_vehicle_arm Config.sample 1 1 State.initialised =
      .halt .fault (State.initialised.emit (.g_message 1 "as_api_vehicle_arm")) :=
  ⟨rfl, (arm_disarm_without_session Config.sample 1 1 State.initialised rfl).1⟩

/-! ## Repeated initialisation -/

theorem as_api_init_done (cfg : Config) (q : Option String) (st : State)
    (h : st.as_init_status = true) : as_api_init cfg q st = .ret () st := by
  unfold as_api_init; simp [h]

theorem as_api_init_calls_done (cfg : Config) (ps : List (Option String)) (st : State)
    (h : st.as_init_status = true) : as_api_init_calls cfg ps st = .ret () st := by
  induction ps with
  | nil => rfl
  | cons p ps ih => simp [as_api_init_calls, as_api_init_done cfg p st h, ih]

/-! ## C10 -/

/-- C10 fails as stated: `as_api_init(NULL)` followed by
`as_api_init("serial port")`. The first non-null selector is "serial port", which
would select the serial port (`subnet_address = NULL`); the code keeps the
default subnet of the first call and has started the UDP reader, not the serial
one. -/
theorem init_keeps_first_call_not_first_non_null :
    first_non_null_selector [none, some "serial port"] = some "serial port" ∧
    select_subnet_address Config.sample (first_non_null_selector [none, some "serial port"])
      = none ∧
    (as_api_init_calls Config.sample [none, some "serial port"] State.start).state.subnet_address
      = some "192.168.2." ∧
    (as_api_init_calls Config.sample [none, some "serial port"] State.start).state.trace =
      [Event.call "as_read_ini_file", Event.call "as_set_log_handler",
        Event.call "as_sql_open_db", Event.call "as_udp_read_init",
        Event.g_thread_new "as_api_main" none] := by
  refine ⟨rfl, by decide, rfl, rfl⟩

/-- C10 (amended): in a process that is not yet initialised, any sequence of
N ≥ 1 calls of `as_api_init` has the effect of its first call alone, whatever
the selectors: the tables are created, the three collaborators are called, one
reader is started and the main loop is spawned exactly once, and
`subnet_address` is chosen by the selector of the first call (NULL: the default
subnet; "serial port": NULL, the serial reader; another string: that address);
every later call returns leaving the state unchanged. -/
theorem init_first_call_wins (cfg : Config) (p : Option String) (ps : List (Option String))
    (st : State) (h : st.as_init_status = false) :
    ∃ st1, as_api_init_calls cfg (p :: ps) st = .ret () st1 ∧
      as_api_init cfg p st = .ret () st1 ∧
      (∀ q, as_api_init cfg q st1 = .ret () st1) ∧
      st1.as_init_status = true ∧
      st1.trace = st.trace ++
        [Event.call "as_read_ini_file", Event.call "as_set_log_handler",
          Event.call "as_sql_open_db", start_reader st1.subnet_address,
          Event.g_thread_new "as_api_main" none] ∧
      st1.message_hash_table.isSome ∧ st1.parameter_hash_table.isSome ∧
      st1.manual_control_table.isSome ∧ st1.target_hash_table.isSome ∧
      (p = none → st1.subnet_address = some cfg.SUBNET_ADDRESS) ∧
      (p = some "serial port" → st1.subnet_address = none) ∧
      (∀ a, p = some a → a ≠ "serial port" → st1.subnet_address = some a) := by
  have hfirst : ∃ st1, as_api_init cfg p st = .ret () st1 ∧ st1.as_init_status = true ∧
      st1.subnet_address = select_subnet_address cfg p ∧
      st1.trace = st.trace ++
        [Event.call "as_read_ini_file", Event.call "as_set_log_handler",
          Event.call "as_sql_open_db", start_reader st1.subnet_address,
          Event.g_thread_new "as_api_main" none] ∧
      st1.message_hash_table.isSome ∧ st1.parameter_hash_table.isSome ∧
      st1.manual_control_table.isSome ∧ st1.target_hash_table.isSome := by
    unfold as_api_init
    simp only [h]
    exact ⟨_, rfl, rfl, rfl, by simp [State.emit], rfl, rfl, rfl, rfl⟩
  obtain ⟨st1, h1, hi, hsub, htr, hm, hp, hmc, ht⟩ := hfirst
  refine ⟨st1, ?_, h1, fun q => as_api_init_done cfg q st1 hi, hi, htr, hm, hp, hmc, ht,
    ?_, ?_, ?_⟩
  · simp [as_api_init_calls, h1, as_api_init_calls_done cfg ps st1 hi]
  · intro hp0; rw [hsub, hp0]; rfl
  · intro hp0; rw [hsub, hp0]; simp [select_subnet_address]
  · intro a hp0 ha; rw [hsub, hp0]; simp [select_subnet_address, ha]

/-- Witness for C10 (amended): three calls at process start, the first with NULL. -/
theorem init_first_call_wins_witness :
    State.start.as_init_status = false ∧
    ∃ st1, as_api_init_calls Config.sample [none, some "serial port", some "10.0.0."]
        State.start = .ret () st1 ∧
      st1.subnet_address = some "192.168.2." := by
  obtain ⟨st1, h1, -, -, -, -, -, -, -, -, h2, -, -⟩ :=
    init_first_call_wins Config.sample none [some "serial port", some "10.0.0."]
      State.start rfl
  exact ⟨rfl, st1, h1, h2 rfl⟩

/-! ## Setpoint ranges -/

theorem entry_insert {β : Type} (table : Option (Nat → Option β)) (ts k : Nat) (v : β) :
    entry (g_hash_table_insert table ts v) k =
      if k = ts then table.map (fun _ => v) else entry table k := by
  cases table with
  | none => simp [entry, g_hash_table_insert]
  | some t => by_cases h : k = ts <;> simp [entry, g_hash_table_insert, setAt, h]

theorem entry_poke {β : Type} (table : Option (Nat → Option β)) (key : Option Nat)
    (f : β → β) (k : Nat) :
    entry (g_hash_table_poke table key f) k =
      if some k = key then (entry table k).map f else entry table k := by
  cases table with
  | none => simp [entry, g_hash_table_poke]
  | some t => simp [entry, g_hash_table_poke]

theorem setpoint_is_entry {st : State} {s : Nat} {mc : mavlink_manual_control_t}
    (h : setpoint st s = some mc) : ∃ k, entry st.manual_control_table k = some mc := by
  have hl := lookup_eq_of_setpoint h
  unfold g_hash_table_lookup at hl
  cases ht : st.manual_control_table with
  | none => rw [ht] at hl; cases hl
  | some t =>
    rw [ht] at hl
    cases hk : st.sys_key s with
    | none => rw [hk] at hl; cases hl
    | some k =>
      rw [hk] at hl
      injection hl with hl
      exact ⟨k, hl⟩

theorem InRange_initial : InRange initial_manual_control := by
  simp [InRange, initial_manual_control]

theorem InRange_clear (mc : mavlink_manual_control_t) : InRange (clear_manual_control mc) := by
  simp [InRange, clear_manual_control]

theorem SetpointsInRange_poke {st st' : State} (h : st.SetpointsInRange) (key : Option Nat)
    (f : mavlink_manual_control_t → mavlink_manual_control_t)
    (htab : st'.manual_control_table = g_hash_table_poke st.manual_control_table key f)
    (hf : ∀ mc, InRange (f mc)) : st'.SetpointsInRange := by
  intro k mc hmc
  rw [htab, entry_poke] at hmc
  split at hmc
  · cases he : entry st.manual_control_table k with
    | none => rw [he] at hmc; cases hmc
    | some mc0 =>
      rw [he] at hmc
      injection hmc with hmc
      rw [← hmc]
      exact hf mc0
  · exact h k mc hmc

/-- A returned call with axis arguments in range keeps all stored setpoints in
range. -/
theorem SetpointsInRange_step (cfg : Config) (op : Op) {st st' : State}
    (h : st.SetpointsInRange) (hargs : op.axesInRange)
    (hstep : op.exec cfg st = .ret () st') : st'.SetpointsInRange := by
  by_cases ht : op.touchesSessions = false
  · have hs := exec_same_sessions cfg op st ht
    rw [hstep] at hs
    intro k mc hmc
    rw [show st'.manual_control_table = st.manual_control_table from hs.manual_control_table]
      at hmc
    exact h k mc hmc
  · cases op with
    | as_api_init p =>
      simp only [Op.exec] at hstep
      unfold as_api_init at hstep
      split at hstep
      · injection hstep with _ h2; subst h2; exact h
      · injection hstep with _ h2
        subst h2
        intro k mc hmc
        simp [State.emit, entry, g_hash_table_new] at hmc
    | as_system_add ts ta m p sock chan =>
      simp only [Op.exec] at hstep
      obtain ⟨-, -, -, -, hmc, -⟩ := as_system_add_ret hstep
      intro k mc hk
      rw [hmc, entry_insert] at hk
      split at hk
      · cases ht' : st.manual_control_table with
        | none => rw [ht'] at hk; cases hk
        | some t =>
          rw [ht'] at hk
          injection hk with hk
          rw [← hk]
          exact InRange_initial
      · exact h k mc hk
    | as_api_manual_control x y z r b va =>
      simp only [Op.exec] at hstep
      rw [as_api_manual_control_eq] at hstep
      split at hstep
      · injection hstep with _ h2
        subst h2
        intro k mc hk
        rw [logged_manual_control_table] at hk
        exact h k mc hk
      · split at hstep
        · cases hstep
        · cases hstep
        · injection hstep with _ h2
          subst h2
          exact SetpointsInRange_poke h (st.sys_key (manual_control_sys_id st va))
            (fun p => { p with x := x, y := y, z := z, r := r, buttons := b }) rfl
            (fun _ => hargs)
    | as_api_vehicle_arm ts ta =>
      simp only [Op.exec] at hstep
      rw [as_api_vehicle_arm_eq] at hstep
      split at hstep
      · cases hstep
      · cases hstep
      · injection hstep with _ h2
        subst h2
        exact SetpointsInRange_poke h (st.sys_key ts) clear_manual_control rfl InRange_clear
    | as_api_vehicle_disarm ts ta =>
      simp only [Op.exec] at hstep
      rw [as_api_vehicle_disarm_eq] at hstep
      split at hstep
      · cases hstep
      · cases hstep
      · injection hstep with _ h2
        subst h2
        exact SetpointsInRange_poke h (st.sys_key ts) clear_manual_control rfl InRange_clear
    | _ => simp [Op.touchesSessions] at ht

theorem reachable_in_range_setpoints (cfg : Config) {st : State}
    (h : ReachableInRange cfg st) : st.SetpointsInRange := by
  induction h with
  | start =>
    intro k mc hk
    simp [State.start, entry] at hk
  | @step st st' op _ hargs hstep ih => exact SetpointsInRange_step cfg op ih hargs hstep

theorem reachable_driven2 : ReachableInRange Config.sample State.driven2 :=
  ReachableInRange.step (Op.as_api_manual_control 500 (-500) 100 0 1 2)
    (ReachableInRange.step (Op.as_api_vehicle_arm 2 1)
      (ReachableInRange.step (Op.as_system_add 2 1 (some (Mavlink_Messages_t.sample 20))
          (some { handle := 21 }) (some 22) none)
        (ReachableInRange.step (Op.as_system_add 1 1 (some (Mavlink_Messages_t.sample 10))
            (some { handle := 11 }) (some 12) none)
          (ReachableInRange.step (Op.as_api_init none) ReachableInRange.start trivial rfl)
          trivial rfl)
        trivial rfl)
      trivial rfl)
    (by simp [Op.axesInRange]) rfl

/-! ## C11 -/

/-- C11 fails as stated: systems 1 and 2 are admitted and 2 is armed;
`as_api_manual_control(2000, 0, -1, 0, 0, 2)`, whose arguments are `int16_t`
values, returns, and the state it leaves is reachable; the setpoint of system 2
is then `x = 2000`, `z = -1`, outside the ranges. -/
theorem manual_control_stores_out_of_range :
    is_int16 2000 ∧ is_int16 0 ∧ is_int16 (-1) ∧
    Reachable Config.sample State.armed2 ∧
    (Op.as_api_manual_control 2000 0 (-1) 0 0 2).exec Config.sample State.armed2
      = .ret () State.overdriven2 ∧
    Reachable Config.sample State.overdriven2 ∧
    setpoint State.overdriven2 2 =
      some { x := 2000, y := 0, z := -1, r := 0, buttons := 0, target := 0 } ∧
    ¬ InRange { x := 2000, y := 0, z := -1, r := 0, buttons := 0, target := 0 } := by
  refine ⟨by simp [is_int16], by simp [is_int16], by simp [is_int16], reachable_armed2, rfl,
    Reachable.step (Op.as_api_manual_control 2000 0 (-1) 0 0 2) reachable_armed2 rfl, rfl, ?_⟩
  simp [InRange]

/-- C11 (amended): in every state reached from process start by calls of the
file (as_api_init, as_system_add, as_api_vehicle_arm, as_api_vehicle_disarm,
as_api_manual_control and the others) in which every `as_api_manual_control`
was given `0 ≤ z ≤ 1000` and `-1000 ≤ x, y, r ≤ 1000`, the setpoint of every
session satisfies `0 ≤ z ≤ 1000` and `-1000 ≤ x, y, r ≤ 1000`; the code stores
the arguments as they are. -/
theorem setpoint_in_range_of_arguments_in_range (cfg : Config) (st : State)
    (h : ReachableInRange cfg st) (s : Nat) (mc : mavlink_manual_control_t)
    (hs : setpoint st s = some mc) :
    (0 ≤ mc.z ∧ mc.z ≤ 1000) ∧ (-1000 ≤ mc.x ∧ mc.x ≤ 1000) ∧
      (-1000 ≤ mc.y ∧ mc.y ≤ 1000) ∧ (-1000 ≤ mc.r ∧ mc.r ≤ 1000) := by
  obtain ⟨k, hk⟩ := setpoint_is_entry hs
  exact reachable_in_range_setpoints cfg h k mc hk

/-- Witness for C11 (amended): system 2 after the call of scenario S2. -/
theorem setpoint_in_range_of_arguments_in_range_witness :
    ReachableInRange Config.sample State.driven2 ∧
    setpoint State.driven2 2 =
      some { x := 500, y := -500, z := 100, r := 0, buttons := 1, target := 0 } ∧
    ((0 : Int) ≤ 100 ∧ (100 : Int) ≤ 1000) ∧ ((-1000 : Int) ≤ 500 ∧ (500 : Int) ≤ 1000) ∧
      ((-1000 : Int) ≤ -500 ∧ (-500 : Int) ≤ 1000) ∧ ((-1000 : Int) ≤ 0 ∧ (0 : Int) ≤ 1000) :=
  ⟨reachable_driven2, rfl,
    setpoint_in_range_of_arguments_in_range Config.sample State.driven2 reachable_driven2 2
      { x := 500, y := -500, z := 100, r := 0, buttons := 1, target := 0 } rfl⟩

/-! ## The queues: what one pop does -/

/-- With its mutex free, `statustex_queue_pop` on an existing queue returns the
oldest element and removes only it, or returns NULL on an empty queue; on a
missing queue it returns NULL and the mutex stays locked. -/
theorem statustex_queue_pop_spec (ts : Nat) (st : State)
    (hm : st.statustex_pop_mutex = false) :
    (∀ m rest, st.statustex_queue ts = some (m :: rest) →
      ∃ st', statustex_queue_pop ts st = .ret (some m) st' ∧
        st'.statustex_queue ts = some rest ∧
        (∀ k, k ≠ ts → st'.statustex_queue k = st.statustex_queue k) ∧
        st'.statustex_pop_mutex = false) ∧
    (st.statustex_queue ts = some [] →
      ∃ st', statustex_queue_pop ts st = .ret none st' ∧
        st'.statustex_queue = st.statustex_queue ∧ st'.statustex_pop_mutex = false) ∧
    (st.statustex_queue ts = none →
      statustex_queue_pop ts st = .ret none { st with statustex_pop_mutex := true }) := by
  unfold statustex_queue_pop
  simp only [hm]
  refine ⟨?_, ?_, ?_⟩
  · intro m rest hq
    rw [hq]
    exact ⟨_, rfl, by simp, fun k hk => by simp [hk], rfl⟩
  · intro hq
    rw [hq]
    exact ⟨_, rfl, rfl, rfl⟩
  · intro hq
    rw [hq]
    rfl

/-- The same for `named_val_float_queue_pop`. -/
theorem named_val_float_queue_pop_spec (ts : Nat) (st : State)
    (hm : st.named_val_float_pop_mutex = false) :
    (∀ m rest, st.named_val_float_queue ts = some (m :: rest) →
      ∃ st', named_val_float_queue_pop ts st = .ret (some m) st' ∧
        st'.named_val_float_queue ts = some rest ∧
        (∀ k, k ≠ ts → st'.named_val_float_queue k = st.named_val_float_queue k) ∧
        st'.named_val_float_pop_mutex = false) ∧
    (st.named_val_float_queue ts = some [] →
      ∃ st', named_val_float_queue_pop ts st = .ret none st' ∧
        st'.named_val_float_queue = st.named_val_float_queue ∧
        st'.named_val_float_pop_mutex = false) ∧
    (st.named_val_float_queue ts = none →
      named_val_float_queue_pop ts st =
        .ret none { st with named_val_float_pop_mutex := true }) := by
  unfold named_val_float_queue_pop
  simp only [hm]
  refine ⟨?_, ?_, ?_⟩
  · intro m rest hq
    rw [hq]
    exact ⟨_, rfl, by simp, fun k hk => by simp [hk], rfl⟩
  · intro hq
    rw [hq]
    exact ⟨_, rfl, rfl, rfl⟩
  · intro hq
    rw [hq]
    rfl

/-- The same for `message_queue_pop`. -/
theorem message_queue_pop_spec (ts : Nat) (st : State)
    (hm : st.message_pop_mutex = false) :
    (∀ m rest, st.message_queue ts = some (m :: rest) →
      ∃ st', message_queue_pop ts st = .ret (some m) st' ∧
        st'.message_queue ts = some rest ∧
        (∀ k, k ≠ ts → st'.message_queue k = st.message_queue k) ∧
        st'.message_pop_mutex = false) ∧
    (st.message_queue ts = some [] →
      ∃ st', message_queue_pop ts st = .ret none st' ∧
        st'.message_queue = st.message_queue ∧ st'.message_pop_mutex = false) ∧
    (st.message_queue ts = none →
      message_queue_pop ts st = .ret none { st with message_pop_mutex := true }) := by
  unfold message_queue_pop
  simp only [hm]
  refine ⟨?_, ?_, ?_⟩
  · intro m rest hq
    rw [hq]
    exact ⟨_, rfl, by simp, fun k hk => by simp [hk], rfl⟩
  · intro hq
    rw [hq]
    exact ⟨_, rfl, rfl, rfl⟩
  · intro hq
    rw [hq]
    rfl

/-- A pop that finds its mutex locked never returns. -/
theorem pop_blocked_of_locked (ts : Nat) (st : State) :
    (st.statustex_pop_mutex = true → statustex_queue_pop ts st = .halt .blocked st) ∧
    (st.named_val_float_pop_mutex = true →
      named_val_float_queue_pop ts st = .halt .blocked st) ∧
    (st.message_pop_mutex = true → message_queue_pop ts st = .halt .blocked st) := by
  refine ⟨?_, ?_, ?_⟩
  · intro h; unfold statustex_queue_pop; simp [h]
  · intro h; unfold named_val_float_queue_pop; simp [h]
  · intro h; unfold message_queue_pop; simp [h]

/-! ## C12 -/

/-- C12 (the code misses the claim in the pop for a missing queue): system 1 is
admitted with one queued statustext and no pop mutex is held; system 3 has no
queue. `statustex_queue_pop(3)` returns NULL and leaves the queues as they were,
but it returns at line 657 without `g_mutex_unlock`, so the state has changed:
`my_mutex` is locked. The next `statustex_queue_pop(1)` then never returns
(the queued statustext cannot be popped), and neither does a push that finds
the queue of system 1 over its limit. The other two pop functions do the same.
A push for the missing queue does change nothing. -/
theorem pop_for_missing_queue_leaves_mutex_locked :
    State.pushed1.statustex_queue 3 = none ∧
    State.pushed1.statustex_queue 1 = some [(Mavlink_Messages_t.sample 40).statustext] ∧
    State.pushed1.statustex_pop_mutex = false ∧
    statustex_queue_pop 1 State.pushed1 =
      .ret (some (Mavlink_Messages_t.sample 40).statustext)
        (statustex_queue_pop 1 State.pushed1).state ∧
    statustex_queue_pop 3 State.pushed1 = .ret none State.stray_pop ∧
    State.stray_pop.statustex_queue 1 = State.pushed1.statustex_queue 1 ∧
    State.stray_pop.statustex_pop_mutex = true ∧
    statustex_queue_pop 1 State.stray_pop = .halt .blocked State.stray_pop ∧
    (statustex_pushes Config.sample 1
      [Mavlink_Messages_t.sample 41, Mavlink_Messages_t.sample 42,
        Mavlink_Messages_t.sample 43] State.stray_pop).returns = false ∧
    (statustex_pushes Config.sample 1
      [Mavlink_Messages_t.sample 41, Mavlink_Messages_t.sample 42,
        Mavlink_Messages_t.sample 43] State.pushed1).returns = true ∧
    (named_val_float_queue_pop 3 State.pushed1).state.named_val_float_pop_mutex = true ∧
    (message_queue_pop 3 State.pushed1).state.message_pop_mutex = true ∧
    (statustex_queue_push Config.sample 3 (some (Mavlink_Messages_t.sample 41))
      State.pushed1).state.statustex_pop_mutex = false := by
  refine ⟨rfl, rfl, rfl, rfl, rfl, rfl, rfl, rfl, rfl, rfl, rfl, rfl, rfl⟩

end Ardusub
